import Mathlib

/-!
Verification model of the McCraken ticket system (`src/app.py`).

The Python source is shallowly embedded: the mutable SQLite database is an
explicit `DBState` value, each Flask handler becomes a pure function from a
request form plus the current state to an outcome carrying the successor
state, and SQL queries become list operations over the embedded tables.

Modelling conventions, used throughout:
* Python strings stay Lean `String`s; the primitive operations the source
  uses (`str.strip`, `str.upper`, `str.split`, `float(...)`, `int(...)`,
  `datetime.fromisoformat`) are re-implemented below over `List Char` so
  that every definition evaluates inside the kernel.
* SQLite `REAL` values (ticket quantities, `SUM(quantity)`) are modelled as
  exact rationals `SqlReal` (an integer numerator/denominator pair with
  cross-multiplication addition), i.e. floating point rounding is idealised
  away; every concrete quantity appearing in the claims is exactly
  representable.
* SQLite `TEXT` comparison (BINARY collation) is modelled as lexicographic
  order on the list of code points, which coincides with byte order of the
  UTF-8 encodings.
* A `BEGIN IMMEDIATE ... commit/rollback` block is one atomic step: SQLite
  serialises writers, so concurrent requests are modelled as an arbitrary
  interleaving of whole transactions (`Reachable`).
-/

/-! ## Python string primitives -/

/-- Whitespace test used by `str.strip` (space, tab, newline, CR, VT, FF). -/
def pySpace (c : Char) : Bool :=
  c.toNat = 32 || c.toNat = 9 || c.toNat = 10 || c.toNat = 13 || c.toNat = 11 || c.toNat = 12

/-- Model of Python `str.strip()`: drop whitespace from both ends. -/
def pyStrip (s : String) : String :=
  String.mk (((s.toList.dropWhile pySpace).reverse.dropWhile pySpace).reverse)

/-- ASCII uppercase of one character (model of `str.upper` on the app's data). -/
def pyUpperChar (c : Char) : Char :=
  if 97 ≤ c.toNat ∧ c.toNat ≤ 122 then Char.ofNat (c.toNat - 32) else c

/-- Model of Python `str.upper()` (ASCII range; the app only uppercases form input). -/
def pyUpper (s : String) : String :=
  String.mk (s.toList.map pyUpperChar)

/-- Model of Python `x or d` for an optional string: `d` replaces a missing or
empty value (both are falsy), anything else passes through. -/
def pyOr (x : Option String) (d : String) : String :=
  match x with
  | none => d
  | some s => if s = "" then d else s

/-- First occurrence split: `splitFirst sep cs = some (before, after)` when the
character list `sep` occurs in `cs`, splitting around its first occurrence.
Models both Python `sep in s` (the `isSome` test) and `s.split(sep, 1)`. -/
def splitFirst (sep : List Char) : List Char → Option (List Char × List Char)
  | [] => none
  | c :: cs =>
    if (c :: cs).take sep.length = sep then some ([], (c :: cs).drop sep.length)
    else (splitFirst sep cs).map (fun p => (c :: p.1, p.2))

/-- Decimal digit test. -/
def pyDigit (c : Char) : Bool := 48 ≤ c.toNat && c.toNat ≤ 57

/-- Numeric value of a list of decimal digits. -/
def digitsToNat (cs : List Char) : Nat := cs.foldl (fun a c => 10 * a + (c.toNat - 48)) 0

/-- Model of Python `int(s)` on decimal literals: optional sign then digits;
anything else raises `ValueError`, modelled as `none`. -/
def pyInt (s : String) : Option Int :=
  let cs := (pyStrip s).toList
  let signDigits : Int × List Char :=
    match cs with
    | '-' :: t => (-1, t)
    | '+' :: t => (1, t)
    | _ => (1, cs)
  if signDigits.2 ≠ [] ∧ signDigits.2.all pyDigit then
    some (signDigits.1 * (digitsToNat signDigits.2 : Int))
  else none

/-! ## Exact model of SQLite REAL quantities -/

/-- Exact rational standing in for a SQLite `REAL`: numerator over (positive in
all constructions) denominator, with cross-multiplication addition. Exactness
replaces floating point; every quantity in the claims is representable. -/
structure SqlReal where
  num : Int
  den : Int
deriving DecidableEq, Repr

instance : Zero SqlReal := ⟨⟨0, 1⟩⟩

/-- Cross-multiplication addition of `SqlReal` (no normalisation). -/
def SqlReal.add (a b : SqlReal) : SqlReal :=
  ⟨a.num * b.den + b.num * a.den, a.den * b.den⟩

instance : Add SqlReal := ⟨SqlReal.add⟩

theorem SqlReal.add_def (a b : SqlReal) :
    a + b = ⟨a.num * b.den + b.num * a.den, a.den * b.den⟩ := rfl

theorem SqlReal.zero_def : (0 : SqlReal) = ⟨0, 1⟩ := rfl

instance : AddCommMonoid SqlReal where
  add_assoc a b c := by
    simp only [SqlReal.add_def, SqlReal.mk.injEq]
    constructor <;> ring
  zero_add a := by
    obtain ⟨n, d⟩ := a
    simp only [SqlReal.zero_def, SqlReal.add_def, SqlReal.mk.injEq]
    constructor <;> ring
  add_zero a := by
    obtain ⟨n, d⟩ := a
    simp only [SqlReal.zero_def, SqlReal.add_def, SqlReal.mk.injEq]
    constructor <;> ring
  add_comm a b := by
    simp only [SqlReal.add_def, SqlReal.mk.injEq]
    constructor <;> ring
  nsmul := nsmulRec

/-- Numeric value of a `SqlReal`, for stating value-level facts. -/
def SqlReal.val (a : SqlReal) : ℚ := (a.num : ℚ) / (a.den : ℚ)

/-- Model of Python `float(s)` restricted to plain decimal literals (optional
sign, digits, optional fractional part), which is the shape the ticket form
sends; other inputs raise `ValueError`, modelled as `none`. The value is kept
exact. -/
def pyFloat (s : String) : Option SqlReal :=
  let cs := (pyStrip s).toList
  let signDigits : Int × List Char :=
    match cs with
    | '-' :: t => (-1, t)
    | '+' :: t => (1, t)
    | _ => (1, cs)
  match splitFirst ['.'] signDigits.2 with
  | none =>
    if signDigits.2 ≠ [] ∧ signDigits.2.all pyDigit then
      some ⟨signDigits.1 * (digitsToNat signDigits.2 : Int), 1⟩
    else none
  | some (ip, fp) =>
    if (ip ≠ [] ∨ fp ≠ []) ∧ ip.all pyDigit ∧ fp.all pyDigit ∧ splitFirst ['.'] fp = none then
      some ⟨signDigits.1 * (digitsToNat (ip ++ fp) : Int), (10 : Int) ^ fp.length⟩
    else none

/-! ## Dates and timestamps -/

/-- Calendar date. -/
structure Date where
  year : Nat
  month : Nat
  day : Nat
deriving DecidableEq, Repr

/-- Timestamp with second precision, as `datetime` values appear in the app. -/
structure DateTime where
  date : Date
  hour : Nat
  minute : Nat
  second : Nat
deriving DecidableEq, Repr

/-- Gregorian leap-year rule. -/
def isLeap (y : Nat) : Bool := (y % 4 = 0 && y % 100 ≠ 0) || y % 400 = 0

/-- Number of days in a month. -/
def daysInMonth (y m : Nat) : Nat :=
  if m = 2 then (if isLeap y then 29 else 28)
  else if m = 4 ∨ m = 6 ∨ m = 9 ∨ m = 11 then 30
  else 31

/-- Previous calendar day. -/
def predDay (d : Date) : Date :=
  if d.day > 1 then ⟨d.year, d.month, d.day - 1⟩
  else if d.month > 1 then ⟨d.year, d.month - 1, daysInMonth d.year (d.month - 1)⟩
  else ⟨d.year - 1, 12, 31⟩

/-- Model of `date - timedelta(days=n)`. -/
def subDays (d : Date) : Nat → Date
  | 0 => d
  | n + 1 => subDays (predDay d) n

/-- Lexicographic comparison of dates (true calendar order). -/
def dateLe (a b : Date) : Bool :=
  decide (a.year < b.year ∨ (a.year = b.year ∧
    (a.month < b.month ∨ (a.month = b.month ∧ a.day ≤ b.day))))

/-- Zero-padded decimal rendering, as Python format specs `:06d`, `:04d`, `:02d`. -/
def zeroPad (w n : Nat) : String :=
  let s := toString n
  String.mk (List.replicate (w - s.length) '0') ++ s

/-- ISO date string `YYYY-MM-DD` (Python `date.isoformat()`). -/
def isoDate (d : Date) : String :=
  zeroPad 4 d.year ++ "-" ++ zeroPad 2 d.month ++ "-" ++ zeroPad 2 d.day

/-- ISO timestamp `YYYY-MM-DDTHH:MM:SS`, Python `isoformat(timespec="seconds")`. -/
def isoformatSeconds (t : DateTime) : String :=
  isoDate t.date ++ "T" ++ zeroPad 2 t.hour ++ ":" ++ zeroPad 2 t.minute ++ ":" ++ zeroPad 2 t.second

/-- Parse exactly `YYYY-MM-DD` with calendar validation. -/
def parseDate10 : List Char → Option Date
  | [y1, y2, y3, y4, s1, m1, m2, s2, d1, d2] =>
    if [y1, y2, y3, y4, m1, m2, d1, d2].all pyDigit ∧ s1 = '-' ∧ s2 = '-' then
      let y := digitsToNat [y1, y2, y3, y4]
      let m := digitsToNat [m1, m2]
      let d := digitsToNat [d1, d2]
      if 1 ≤ y ∧ 1 ≤ m ∧ m ≤ 12 ∧ 1 ≤ d ∧ d ≤ daysInMonth y m then some ⟨y, m, d⟩ else none
    else none
  | _ => none

/-- Parse `HH:MM` or `HH:MM:SS` with range validation. -/
def parseTimePart : List Char → Option (Nat × Nat × Nat)
  | [h1, h2, c1, m1, m2] =>
    if [h1, h2, m1, m2].all pyDigit ∧ c1 = ':' then
      let h := digitsToNat [h1, h2]
      let m := digitsToNat [m1, m2]
      if h ≤ 23 ∧ m ≤ 59 then some (h, m, 0) else none
    else none
  | [h1, h2, c1, m1, m2, c2, s1, s2] =>
    if [h1, h2, m1, m2, s1, s2].all pyDigit ∧ c1 = ':' ∧ c2 = ':' then
      let h := digitsToNat [h1, h2]
      let m := digitsToNat [m1, m2]
      let s := digitsToNat [s1, s2]
      if h ≤ 23 ∧ m ≤ 59 ∧ s ≤ 59 then some (h, m, s) else none
    else none
  | _ => none

/-- Model of `datetime.fromisoformat` on the formats the app's form can send:
`YYYY-MM-DD`, optionally followed by `T` or a space and `HH:MM[:SS]`. Any
other input raises `ValueError`, modelled as `none`. -/
def fromIsoformat (s : String) : Option DateTime :=
  let cs := s.toList
  match parseDate10 (cs.take 10) with
  | none => none
  | some d =>
    match cs.drop 10 with
    | [] => some ⟨d, 0, 0, 0⟩
    | sep :: t =>
      if sep = 'T' ∨ sep = ' ' then
        (parseTimePart t).map (fun p => ⟨d, p.1, p.2.1, p.2.2⟩)
      else none

/-- Model of SQLite `date(x)`: the date part of a well-formed date or
date-time string, `NULL` (here `none`) otherwise. -/
def sqlDate (s : String) : Option Date :=
  let cs := s.toList
  match parseDate10 (cs.take 10) with
  | none => none
  | some d =>
    match cs.drop 10 with
    | [] => some d
    | sep :: _ => if sep = 'T' ∨ sep = ' ' then some d else none

/-! ## Database state -/

/-- One row of `jobs_cache` (schema in §6 of the spec; populated by
`refresh_jobs_cache`). -/
structure JobCacheRow where
  id : Nat
  job_code : String
  job_name : String
  customer : String
  active : Int
  source_updated_at : Option String
  refreshed_at : String
deriving DecidableEq, Repr

/-- One row of `trucks` (only the columns ticket creation reads). -/
structure Truck where
  id : Nat
  truck_number : String
deriving DecidableEq, Repr

/-- One row of `materials` (only the columns ticket creation reads). -/
structure Material where
  id : Nat
  material_name : String
deriving DecidableEq, Repr

/-- One row of `tickets`, with `pdf_blob` as the stored rendered bytes. -/
structure Ticket where
  id : Nat
  ticket_number : String
  ticket_year : Nat
  ticket_sequence : Nat
  direction : String
  created_at : String
  job_id : Option Nat
  job_code_snapshot : String
  job_name_snapshot : String
  customer_snapshot : String
  truck_id : Option Nat
  truck_number_snapshot : String
  material_id : Option Nat
  material_name_snapshot : String
  quantity : SqlReal
  unit : String
  notes : String
  pdf_path : String
  pdf_blob : List Nat
deriving DecidableEq, Repr

/-- The embedded database: the tables the modelled handlers touch, plus the
next `tickets` rowid. -/
structure DBState where
  ticket_sequence : List (Nat × Nat)
  tickets : List Ticket
  jobs_cache : List JobCacheRow
  trucks : List Truck
  materials : List Material
  nextTicketId : Nat
deriving DecidableEq, Repr

/-- The freshly initialised database (`init_db` over `schema.sql`): all tables
empty, rowids starting at 1. -/
def initState : DBState := ⟨[], [], [], [], [], 1⟩

/-- Value of `SELECT last_value FROM ticket_sequence WHERE ticket_year = ?`. -/
def seqRow (s : List (Nat × Nat)) (year : Nat) : Option Nat :=
  (s.find? (fun r => r.1 == year)).map (fun r => r.2)

/-- Last issued sequence value for a year, 0 when the counter row is absent. -/
def counterVal (st : DBState) (year : Nat) : Nat :=
  (seqRow st.ticket_sequence year).getD 0

/-- Model of `INSERT OR IGNORE INTO ticket_sequence (ticket_year, last_value)
VALUES (?, 0)` (app.py line 139). -/
def insertOrIgnoreSeq (s : List (Nat × Nat)) (year : Nat) : List (Nat × Nat) :=
  if (s.find? (fun r => r.1 == year)).isSome then s else s ++ [(year, 0)]

/-- Model of `UPDATE ticket_sequence SET last_value = ? WHERE ticket_year = ?`
(app.py line 142). -/
def updateSeq (s : List (Nat × Nat)) (year : Nat) (v : Nat) : List (Nat × Nat) :=
  s.map (fun r => if r.1 == year then (r.1, v) else r)

/-- Human-facing ticket number `f"DT-{year}-{next_value:06d}"` (app.py line 143). -/
def ticketNumberString (year next_value : Nat) : String :=
  "DT-" ++ toString year ++ "-" ++ zeroPad 6 next_value

/-- Result of `next_ticket_number`: its three returned values plus the
`ticket_sequence` table as mutated inside the surrounding transaction. -/
structure AllocResult where
  ticket_number : String
  year : Nat
  next_value : Nat
  seqTable : List (Nat × Nat)
deriving DecidableEq, Repr

/-- Model of `next_ticket_number(db)` (app.py lines 137-144): read the current
wall-clock year, ensure a counter row exists, read it, increment it, and
format the ticket number. The mutation of `ticket_sequence` is returned as
`seqTable`; the caller holds it inside its open transaction. -/
def next_ticket_number (s : List (Nat × Nat)) (nowYear : Nat) : AllocResult :=
  let s1 := insertOrIgnoreSeq s nowYear
  let last_value := (seqRow s1 nowYear).getD 0
  let next_value := last_value + 1
  let s2 := updateSeq s1 nowYear next_value
  ⟨ticketNumberString nowYear next_value, nowYear, next_value, s2⟩

/-! ## Ticket creation (`new_ticket` POST handler, app.py lines 512-659) -/

/-- The POST form of `/tickets/new`. Fields read with
`request.form.get(name, "")` are plain strings (absent means `""`); the three
fields whose absence the handler distinguishes (`quantity`, `unit`,
`custom_datetime`, read with `request.form.get(name)`) are `Option String`. -/
structure TicketForm where
  direction : String
  job_id : String
  job_entry : String
  truck_id : String
  truck_entry : String
  material_id : String
  material_entry : String
  customer : String
  quantity : Option String
  unit : Option String
  notes : String
  use_now : Bool
  custom_datetime : Option String
deriving DecidableEq, Repr

/-- Stripped, uppercased direction (app.py line 517). -/
def formDirection (form : TicketForm) : String := pyUpper (pyStrip form.direction)

/-- Quantity text after defaulting and stripping:
`(request.form.get("quantity") or "1").strip()` (app.py line 525). -/
def formQuantity (form : TicketForm) : String := pyStrip (pyOr form.quantity "1")

/-- Unit text after defaulting and stripping:
`(request.form.get("unit") or "Load").strip()` (app.py line 526). -/
def formUnit (form : TicketForm) : String := pyStrip (pyOr form.unit "Load")

/-- Lookup of `SELECT ... FROM jobs_cache WHERE id = ?` with a string
parameter; SQLite numeric affinity converts the text to the integer key, and
a non-numeric or unmatched key returns no row. -/
def lookupJob (cache : List JobCacheRow) (jid : String) : Option JobCacheRow :=
  match (pyInt jid).bind Int.toNat' with
  | none => none
  | some n => cache.find? (fun r => r.id == n)

/-- Lookup of `SELECT id, truck_number FROM trucks WHERE id = ?`. -/
def lookupTruck (trucks : List Truck) (tid : String) : Option Truck :=
  match (pyInt tid).bind Int.toNat' with
  | none => none
  | some n => trucks.find? (fun r => r.id == n)

/-- Lookup of `SELECT id, material_name FROM materials WHERE id = ?`. -/
def lookupMaterial (materials : List Material) (mid : String) : Option Material :=
  match (pyInt mid).bind Int.toNat' with
  | none => none
  | some n => materials.find? (fun r => r.id == n)

/-- The job separator `" - "` as characters. -/
def jobSep : List Char := [' ', '-', ' ']

/-- Snapshot fields produced by the pre-transaction part of `new_ticket`. -/
structure Resolved where
  direction : String
  job_id_value : Option Nat
  job_code_snapshot : String
  job_name_snapshot : String
  customer : String
  truck_id_value : Option Nat
  truck_number_snapshot : String
  material_id_value : Option Nat
  material_name_snapshot : String
  quantity_num : SqlReal
  unit : String
  notes : String
  use_now : Bool
  custom_datetime : Option String
deriving DecidableEq, Repr

/-- Job snapshot resolution for an unresolved identifier (app.py lines
555-561): free text containing `" - "` splits at its first occurrence into
stripped `(code, name)`, otherwise the whole text is both code and name. -/
def jobEntrySnapshot (job_entry : String) : String × String :=
  match splitFirst jobSep job_entry.toList with
  | some (before, after) => (pyStrip (String.mk before), pyStrip (String.mk after))
  | none => (job_entry, job_entry)

/-- The job row resolved from the form's `job_id` (app.py lines 542-543). -/
def resolvedJob (form : TicketForm) (st : DBState) : Option JobCacheRow :=
  if pyStrip form.job_id ≠ "" then lookupJob st.jobs_cache (pyStrip form.job_id) else none

/-- The truck row resolved from the form's `truck_id` (app.py lines 544-545). -/
def resolvedTruck (form : TicketForm) (st : DBState) : Option Truck :=
  if pyStrip form.truck_id ≠ "" then lookupTruck st.trucks (pyStrip form.truck_id) else none

/-- The material row resolved from the form's `material_id` (app.py lines
546-547). -/
def resolvedMaterial (form : TicketForm) (st : DBState) : Option Material :=
  if pyStrip form.material_id ≠ "" then lookupMaterial st.materials (pyStrip form.material_id) else none

/-- Job snapshot fields (id reference, code, name, customer) per app.py lines
549-561: a resolved cache row supplies its canonical fields and its customer
when the form left customer blank; otherwise the free text is split by
`jobEntrySnapshot` and the form's customer is kept. -/
def jobSnapshotFields (form : TicketForm) (st : DBState) : Option Nat × String × String × String :=
  match resolvedJob form st with
  | some j =>
    (some j.id, j.job_code, j.job_name,
      if pyStrip form.customer = "" then pyStrip j.customer else pyStrip form.customer)
  | none =>
    (none, (jobEntrySnapshot (pyStrip form.job_entry)).1,
      (jobEntrySnapshot (pyStrip form.job_entry)).2, pyStrip form.customer)

/-- Truck snapshot fields per app.py lines 563-568. -/
def truckSnapshotFields (form : TicketForm) (st : DBState) : Option Nat × String :=
  match resolvedTruck form st with
  | some t => (some t.id, t.truck_number)
  | none => (none, pyStrip form.truck_entry)

/-- Material snapshot fields per app.py lines 570-575. -/
def materialSnapshotFields (form : TicketForm) (st : DBState) : Option Nat × String :=
  match resolvedMaterial form st with
  | some m => (some m.id, m.material_name)
  | none => (none, pyStrip form.material_entry)

/-- The fully resolved request once every validation passed. -/
def resolvedOf (form : TicketForm) (st : DBState) (quantity_num : SqlReal) : Resolved :=
  { direction := formDirection form
    job_id_value := (jobSnapshotFields form st).1
    job_code_snapshot := (jobSnapshotFields form st).2.1
    job_name_snapshot := (jobSnapshotFields form st).2.2.1
    customer := (jobSnapshotFields form st).2.2.2
    truck_id_value := (truckSnapshotFields form st).1
    truck_number_snapshot := (truckSnapshotFields form st).2
    material_id_value := (materialSnapshotFields form st).1
    material_name_snapshot := (materialSnapshotFields form st).2
    quantity_num := quantity_num
    unit := formUnit form
    notes := pyStrip form.notes
    use_now := form.use_now
    custom_datetime := form.custom_datetime }

/-- Pre-transaction validation and snapshot resolution of `new_ticket`
(app.py lines 516-581): check the direction, check the five required texts
(note `quantity` and `unit` were already defaulted by `formQuantity` and
`formUnit`), resolve the snapshots, and parse the quantity. Errors are the
flashed messages; no database mutation happens here (lookups are reads). -/
def validateAndResolve (form : TicketForm) (st : DBState) : Except String Resolved :=
  if ¬(formDirection form = "IN" ∨ formDirection form = "OUT") then
    .error "Direction must be IN or OUT."
  else if pyStrip form.job_entry = "" ∨ pyStrip form.truck_entry = "" ∨
      pyStrip form.material_entry = "" ∨ formQuantity form = "" ∨ formUnit form = "" then
    .error "Job, truck, material, quantity, and unit are required."
  else
    match pyFloat (formQuantity form) with
    | none => .error "Quantity must be numeric."
    | some quantity_num => .ok (resolvedOf form st quantity_num)

/-- Handling of a supplied custom timestamp (app.py lines 589-596): an empty
one is rejected like a missing one, an unparseable one is an invalid-format
error, and a parseable one is re-serialised to seconds precision. -/
def customCreatedAt (c : String) : Except String String :=
  if c = "" then .error "Please select a valid date and time."
  else
    match fromIsoformat c with
    | none => .error "Invalid date format."
    | some dt => .ok (isoformatSeconds dt)

/-- The `created_at` computation inside the transaction (app.py lines
586-596): "now" when `use_now` is set, otherwise the custom timestamp must be
present and parseable; the failure messages are the flashed errors. -/
def createdAtResult (now : DateTime) (r : Resolved) : Except String String :=
  if r.use_now then .ok (isoformatSeconds now)
  else
    match r.custom_datetime with
    | none => .error "Please select a valid date and time."
    | some c => customCreatedAt c

/-- Path where `save_pdf` stores the rendered ticket (app.py lines 342-349). -/
def pdfPathString (year : Nat) (ticket_number : String) : String :=
  "tickets_pdf/" ++ toString year ++ "/" ++ ticket_number ++ ".pdf"

/-- The ticket row assembled inside the transaction (app.py lines 598-610 and
the INSERT at 615-643), before the rendered bytes are attached. -/
def mkRow (now : DateTime) (r : Resolved) (st : DBState) (created_at : String) : Ticket :=
  { id := st.nextTicketId
    ticket_number := (next_ticket_number st.ticket_sequence now.date.year).ticket_number
    ticket_year := (next_ticket_number st.ticket_sequence now.date.year).year
    ticket_sequence := (next_ticket_number st.ticket_sequence now.date.year).next_value
    direction := r.direction
    created_at := created_at
    job_id := r.job_id_value
    job_code_snapshot := r.job_code_snapshot
    job_name_snapshot := r.job_name_snapshot
    customer_snapshot := r.customer
    truck_id := r.truck_id_value
    truck_number_snapshot := r.truck_number_snapshot
    material_id := r.material_id_value
    material_name_snapshot := r.material_name_snapshot
    quantity := r.quantity_num
    unit := r.unit
    notes := r.notes
    pdf_path := pdfPathString now.date.year
      (next_ticket_number st.ticket_sequence now.date.year).ticket_number
    pdf_blob := [] }

/-- The database state committed at app.py line 644: the incremented counter
and the inserted ticket row (with its rendered bytes) become durable together. -/
def commitState (now : DateTime) (r : Resolved) (st : DBState) (created_at : String)
    (bytes : List Nat) : DBState :=
  { st with
    ticket_sequence := (next_ticket_number st.ticket_sequence now.date.year).seqTable
    tickets := st.tickets ++ [{ mkRow now r st created_at with pdf_blob := bytes }]
    nextTicketId := st.nextTicketId + 1 }

/-- Outcome of one `new_ticket` POST. `txValidationError` is the early
`return redirect(...)` taken inside the open transaction (app.py lines
589-596); it records the uncommitted `ticket_sequence` table visible inside
that transaction. `txError` is any exception between allocation and commit
(`to_pdf_bytes`, `save_pdf`, the INSERT, or the commit), caught by the
`except` clause that rolls back and re-raises (lines 645-647). -/
inductive NewTicketOutcome where
  | validationError (msg : String)
  | txValidationError (msg : String) (txSeqTable : List (Nat × Nat))
  | txError
  | success (ticket_number : String) (st : DBState)
deriving DecidableEq, Repr

/-- Tail of the transaction once `created_at` is known (app.py lines
598-644): render the document (`render` stands for `to_pdf_bytes`, `none`
when rendering raises), then write the file, INSERT and commit (their joint
success is `insertOk`). -/
def txFinish (now : DateTime) (r : Resolved) (render : Ticket → Option (List Nat))
    (insertOk : Bool) (st : DBState) (created_at : String) : NewTicketOutcome :=
  match render (mkRow now r st created_at) with
  | none => .txError
  | some bytes =>
    if insertOk then
      .success (next_ticket_number st.ticket_sequence now.date.year).ticket_number
        (commitState now r st created_at bytes)
    else .txError

/-- The transactional part of `new_ticket` (app.py lines 583-647), from
`BEGIN IMMEDIATE` onward: allocate the ticket number, compute `created_at`,
then render and insert. -/
def txPhase (now : DateTime) (r : Resolved) (render : Ticket → Option (List Nat))
    (insertOk : Bool) (st : DBState) : NewTicketOutcome :=
  match createdAtResult now r with
  | .error msg =>
    .txValidationError msg (next_ticket_number st.ticket_sequence now.date.year).seqTable
  | .ok created_at => txFinish now r render insertOk st created_at

/-- Model of one POST to `/tickets/new` (app.py lines 512-659): validation
and resolution, then the `BEGIN IMMEDIATE` transaction. -/
def new_ticket (now : DateTime) (form : TicketForm) (render : Ticket → Option (List Nat))
    (insertOk : Bool) (st : DBState) : NewTicketOutcome :=
  match validateAndResolve form st with
  | .error msg => .validationError msg
  | .ok r => txPhase now r render insertOk st

/-- Durable database state after the request finishes and the connection is
closed. A pre-transaction validation error never touched the database; the
in-transaction early return leaves the transaction uncommitted, so closing
the connection rolls it back; an exception is rolled back explicitly (app.py
line 646); only `db.commit()` (line 644) publishes the new state. -/
def durableState (st : DBState) : NewTicketOutcome → DBState
  | .validationError _ => st
  | .txValidationError _ _ => st
  | .txError => st
  | .success _ st2 => st2

/-- States reachable from the fresh database under any interleaving of
complete operations: ticket creations (each one atomic thanks to
`BEGIN IMMEDIATE`, which serialises writers) and operations that only touch
the reference tables (jobs sync, admin truck/material CRUD), which never
write `tickets` or `ticket_sequence`. -/
inductive Reachable : DBState → Prop where
  | init : Reachable initState
  | create (now : DateTime) (form : TicketForm) (render : Ticket → Option (List Nat))
      (insertOk : Bool) (st : DBState) : Reachable st →
      Reachable (durableState st (new_ticket now form render insertOk st))
  | refs (st : DBState) (jc : List JobCacheRow) (tr : List Truck) (mt : List Material) :
      Reachable st →
      Reachable { st with jobs_cache := jc, trucks := tr, materials := mt }

/-! ## Report filtering, ordering and aggregation (app.py lines 718-1057) -/

/-- Query parameters common to `/reports`, `/reports/export.csv` and
`/reports/print` (absent parameters arrive as `""`). -/
structure ReportArgs where
  date_from : String
  date_to : String
  direction : String
  job_id : String
  material_id : String
deriving DecidableEq, Repr

/-- The effective WHERE-clause inputs after each route's parameter handling. -/
structure WhereArgs where
  date_from : String
  date_to : String
  direction : String
  job_id : String
  material_id : String
deriving DecidableEq, Repr

/-- Condition `date(t.created_at) >= date(?)`: SQL NULL (an unparseable side)
never compares true. -/
def dateGeCond (created_at param : String) : Bool :=
  match sqlDate created_at, sqlDate param with
  | some a, some b => dateLe b a
  | _, _ => false

/-- Condition `date(t.created_at) <= date(?)`. -/
def dateLeCond (created_at param : String) : Bool :=
  match sqlDate created_at, sqlDate param with
  | some a, some b => dateLe a b
  | _, _ => false

/-- Condition `t.job_id = ?` / `t.material_id = ?` with a text parameter
against an integer column: numeric affinity converts the text, and a NULL
column or non-numeric text never matches. -/
def idCond (col : Option Nat) (param : String) : Bool :=
  match col, (pyInt param).bind Int.toNat' with
  | some a, some b => a == b
  | _, _ => false

/-- The WHERE clause built identically at app.py lines 731-750 (reports),
831-850 (CSV export) and 967-990 (print): each supplied filter adds one
conjunct; a direction other than `IN`/`OUT` adds none. -/
def ticketMatches (w : WhereArgs) (t : Ticket) : Bool :=
  (w.date_from == "" || dateGeCond t.created_at w.date_from) &&
  (w.date_to == "" || dateLeCond t.created_at w.date_to) &&
  (!(w.direction == "IN" || w.direction == "OUT") || t.direction == w.direction) &&
  (w.job_id == "" || idCond t.job_id w.job_id) &&
  (w.material_id == "" || idCond t.material_id w.material_id)

/-- SQLite BINARY collation key of a text value: its code points (UTF-8 byte
order coincides with code-point order). -/
def sqlKey (s : String) : List Nat := s.toList.map Char.toNat

/-- Lexicographic combination: strictly smaller primary key, or equal primary
keys and the tie-break relation. -/
def lexRel {α K : Type} [LinearOrder K] (key : α → K) (rest : α → α → Prop)
    (a b : α) : Prop :=
  key a < key b ∨ (key a = key b ∧ rest a b)

instance lexRelDecidable {α K : Type} [LinearOrder K] (key : α → K)
    (rest : α → α → Prop) [DecidableRel rest] : DecidableRel (lexRel key rest) :=
  fun a b => inferInstanceAs (Decidable (key a < key b ∨ (key a = key b ∧ rest a b)))

instance lexRelTotal {α K : Type} [LinearOrder K] (key : α → K)
    (rest : α → α → Prop) [IsTotal α rest] : IsTotal α (lexRel key rest) := by
  constructor
  intro a b
  rcases lt_trichotomy (key a) (key b) with h | h | h
  · exact Or.inl (Or.inl h)
  · rcases IsTotal.total (r := rest) a b with hr | hr
    · exact Or.inl (Or.inr ⟨h, hr⟩)
    · exact Or.inr (Or.inr ⟨h.symm, hr⟩)
  · exact Or.inr (Or.inl h)

instance lexRelTrans {α K : Type} [LinearOrder K] (key : α → K)
    (rest : α → α → Prop) [IsTrans α rest] : IsTrans α (lexRel key rest) := by
  constructor
  intro a b c hab hbc
  rcases hab with h1 | ⟨e1, r1⟩
  · rcases hbc with h2 | ⟨e2, _⟩
    · exact Or.inl (h1.trans h2)
    · exact Or.inl (e2 ▸ h1)
  · rcases hbc with h2 | ⟨e2, r2⟩
    · exact Or.inl (e1 ▸ h2)
    · exact Or.inr ⟨e1.trans e2, Trans.trans r1 r2⟩

/-- Tie-break `t.id DESC` shared by all three ticket queries. -/
def idDescRel (a b : Ticket) : Prop := b.id ≤ a.id

instance : DecidableRel idDescRel := fun a b => inferInstanceAs (Decidable (b.id ≤ a.id))

instance : IsTotal Ticket idDescRel := ⟨fun a b => Nat.le_total b.id a.id⟩

instance : IsTrans Ticket idDescRel := ⟨fun _ _ _ h1 h2 => Nat.le_trans h2 h1⟩

/-- The direction rank of the reports ORDER BY (app.py lines 771-775):
`CASE WHEN direction = 'IN' THEN 1 WHEN direction = 'OUT' THEN 2 ELSE 3 END`. -/
def dirRank (d : String) : Nat := if d = "IN" then 1 else if d = "OUT" then 2 else 3

/-- The `/reports` result order (app.py lines 769-776): customer ascending,
then the direction rank, then id descending. -/
def reportRel : Ticket → Ticket → Prop :=
  lexRel (fun t => sqlKey t.customer_snapshot)
    (lexRel (fun t => dirRank t.direction) idDescRel)

instance : DecidableRel reportRel :=
  inferInstanceAs (DecidableRel (lexRel (fun t : Ticket => sqlKey t.customer_snapshot)
    (lexRel (fun t : Ticket => dirRank t.direction) idDescRel)))

instance : IsTotal Ticket reportRel :=
  inferInstanceAs (IsTotal Ticket (lexRel (fun t : Ticket => sqlKey t.customer_snapshot)
    (lexRel (fun t : Ticket => dirRank t.direction) idDescRel)))

instance : IsTrans Ticket reportRel :=
  inferInstanceAs (IsTrans Ticket (lexRel (fun t : Ticket => sqlKey t.customer_snapshot)
    (lexRel (fun t : Ticket => dirRank t.direction) idDescRel)))

/-- The direction rank of the print ORDER BY (app.py lines 999-1002), a CASE
without ELSE: any other direction yields NULL, which sorts first. -/
def printDirRank (d : String) : Nat := if d = "IN" then 1 else if d = "OUT" then 2 else 0

/-- The `/reports/print` result order (app.py lines 997-1003). -/
def printRel : Ticket → Ticket → Prop :=
  lexRel (fun t => sqlKey t.customer_snapshot)
    (lexRel (fun t => printDirRank t.direction) idDescRel)

instance : DecidableRel printRel :=
  inferInstanceAs (DecidableRel (lexRel (fun t : Ticket => sqlKey t.customer_snapshot)
    (lexRel (fun t : Ticket => printDirRank t.direction) idDescRel)))

instance : IsTotal Ticket printRel :=
  inferInstanceAs (IsTotal Ticket (lexRel (fun t : Ticket => sqlKey t.customer_snapshot)
    (lexRel (fun t : Ticket => printDirRank t.direction) idDescRel)))

instance : IsTrans Ticket printRel :=
  inferInstanceAs (IsTrans Ticket (lexRel (fun t : Ticket => sqlKey t.customer_snapshot)
    (lexRel (fun t : Ticket => printDirRank t.direction) idDescRel)))

/-- Key order for `GROUP BY t.unit ... ORDER BY t.unit`. -/
def unitRel (a b : String) : Prop := sqlKey a ≤ sqlKey b

instance : DecidableRel unitRel := fun a b => inferInstanceAs (Decidable (sqlKey a ≤ sqlKey b))

instance : IsTotal String unitRel := ⟨fun a b => le_total (sqlKey a) (sqlKey b)⟩

instance : IsTrans String unitRel := ⟨fun _ _ _ h1 h2 => le_trans h1 h2⟩

/-- Tie-break on the unit component of a (material, unit) grouping key. -/
def sndKeyRel (p q : String × String) : Prop := sqlKey p.2 ≤ sqlKey q.2

instance : DecidableRel sndKeyRel := fun p q => inferInstanceAs (Decidable (sqlKey p.2 ≤ sqlKey q.2))

instance : IsTotal (String × String) sndKeyRel := ⟨fun p q => le_total (sqlKey p.2) (sqlKey q.2)⟩

instance : IsTrans (String × String) sndKeyRel := ⟨fun _ _ _ h1 h2 => le_trans h1 h2⟩

/-- Key order for `GROUP BY material, unit ... ORDER BY material, unit`. -/
def matRel : String × String → String × String → Prop :=
  lexRel (fun p => sqlKey p.1) sndKeyRel

instance : DecidableRel matRel :=
  inferInstanceAs (DecidableRel (lexRel (fun p : String × String => sqlKey p.1) sndKeyRel))

instance : IsTotal (String × String) matRel :=
  inferInstanceAs (IsTotal (String × String) (lexRel (fun p : String × String => sqlKey p.1) sndKeyRel))

instance : IsTrans (String × String) matRel :=
  inferInstanceAs (IsTrans (String × String) (lexRel (fun p : String × String => sqlKey p.1) sndKeyRel))

/-- Aggregate `SELECT unit, SUM(quantity) ... GROUP BY unit ORDER BY unit`
over an already-filtered ticket list: one row per distinct unit, carrying the
sum of quantities of the filtered tickets with that unit. -/
def totalsByUnit (ts : List Ticket) : List (String × SqlReal) :=
  ((ts.map (fun t => t.unit)).dedup.insertionSort unitRel).map
    (fun u => (u, ((ts.filter (fun t => t.unit == u)).map (fun t => t.quantity)).sum))

/-- Grouping key of the totals-by-material aggregate. -/
def materialKey (t : Ticket) : String × String := (t.material_name_snapshot, t.unit)

/-- Aggregate `SELECT material_name_snapshot, unit, SUM(quantity) ... GROUP BY
material_name_snapshot, unit` (ordered by material then unit). -/
def totalsByMaterial (ts : List Ticket) : List ((String × String) × SqlReal) :=
  ((ts.map materialKey).dedup.insertionSort matRel).map
    (fun k => (k, ((ts.filter (fun t => materialKey t == k)).map (fun t => t.quantity)).sum))

/-- What each report route returns: a page of tickets and the two totals
tables. -/
structure ReportsView where
  tickets : List Ticket
  totals_by_unit : List (String × SqlReal)
  totals_by_material : List ((String × String) × SqlReal)
deriving DecidableEq, Repr

/-- Query-parameter handling shared verbatim by `/reports` (app.py lines
721-725) and `/reports/export.csv` (lines 825-829): strip every parameter and
uppercase the direction. -/
def parseWhereArgs (args : ReportArgs) : WhereArgs :=
  ⟨pyStrip args.date_from, pyStrip args.date_to, pyUpper (pyStrip args.direction),
   pyStrip args.job_id, pyStrip args.material_id⟩

/-- The effective filter of `/reports` (app.py lines 727-729): when both
dates are empty the window defaults to the last 14 days through today. -/
def reportsWhere (today : Date) (args : ReportArgs) : WhereArgs :=
  if pyStrip args.date_from = "" ∧ pyStrip args.date_to = "" then
    { parseWhereArgs args with
        date_from := isoDate (subDays today 14), date_to := isoDate today }
  else parseWhereArgs args

/-- The tickets matched by the `/reports` filter. -/
def reportsFiltered (today : Date) (args : ReportArgs) (st : DBState) : List Ticket :=
  st.tickets.filter (ticketMatches (reportsWhere today args))

/-- Model of GET `/reports` (app.py lines 718-819): filter with the default
window, page the ordered results (`LIMIT 20 OFFSET ?`), and compute both
totals over the full filtered set. -/
def reports (today : Date) (args : ReportArgs) (offset : Nat) (st : DBState) : ReportsView :=
  let filtered := reportsFiltered today args st
  { tickets := ((filtered.insertionSort reportRel).drop offset).take 20
    totals_by_unit := totalsByUnit filtered
    totals_by_material := totalsByMaterial filtered }

/-- The tickets matched by the `/reports/export.csv` filter: the same parsed
parameters, but no default date window. -/
def exportFiltered (args : ReportArgs) (st : DBState) : List Ticket :=
  st.tickets.filter (ticketMatches (parseWhereArgs args))

/-- Model of GET `/reports/export.csv` (app.py lines 822-956): same WHERE
construction as `/reports` but with no default date window, tickets ordered
by id descending with `LIMIT 1000`, and the same two totals queries. -/
def export_reports_csv (args : ReportArgs) (st : DBState) : ReportsView :=
  let filtered := exportFiltered args st
  { tickets := (filtered.insertionSort idDescRel).take 1000
    totals_by_unit := totalsByUnit filtered
    totals_by_material := totalsByMaterial filtered }

/-- The effective filter of `/reports/print` (app.py lines 961-990): raw
query parameters, unstripped, and no default date window. -/
def printWhere (args : ReportArgs) : WhereArgs :=
  ⟨args.date_from, args.date_to, args.direction, args.job_id, args.material_id⟩

/-- Model of GET `/reports/print` (app.py lines 957-1057): no default date
window, no page limit, and the same totals (their GROUP BY rows modelled in
key order). -/
def print_reports (args : ReportArgs) (st : DBState) : ReportsView :=
  let filtered := st.tickets.filter (ticketMatches (printWhere args))
  { tickets := filtered.insertionSort printRel
    totals_by_unit := totalsByUnit filtered
    totals_by_material := totalsByMaterial filtered }

/-! ## Jobs cache synchronisation (app.py lines 358-481, CSV source) -/

/-- A parsed CSV jobs source as `csv.DictReader` sees it: the header row and
the data rows (each a list of cell strings). -/
structure CsvSource where
  fieldnames : List String
  rows : List (List String)
deriving DecidableEq, Repr

/-- Model of `DictReader` row access `row.get(col)`: the cell under the first
header occurrence of `col`, `None` when the row is shorter than the header. -/
def dictGet (fieldnames row : List String) (col : String) : Option String :=
  (fieldnames.indexOf? col).bind (fun i => row.get? i)

/-- Model of the inner `first_present(*names)` helper (app.py lines 386-390):
the first candidate name that occurs among the field names. -/
def first_present (fieldnames names : List String) : Option String :=
  names.find? (fun n => fieldnames.contains n)

/-- Model of `str(row.get(col) or "").strip()`. -/
def cellText (fieldnames row : List String) (col : String) : String :=
  pyStrip ((dictGet fieldnames row col).getD "")

/-- Model of `upsert_job_cache_row` (app.py lines 358-371): insert keyed on
`job_code`, or overwrite every mutable field of the existing row. The rowid
counter for fresh inserts is threaded alongside. -/
def upsert_job_cache_row (cache : List JobCacheRow) (nextId : Nat) (job_code job_name customer : String)
    (active : Int) (source_updated_at : Option String) (refreshed_at : String) :
    List JobCacheRow × Nat :=
  if cache.any (fun r => r.job_code == job_code) then
    (cache.map (fun r =>
      if r.job_code == job_code then
        { r with job_name := job_name, customer := customer, active := active,
                 source_updated_at := source_updated_at, refreshed_at := refreshed_at }
      else r), nextId)
  else
    (cache ++ [⟨nextId, job_code, job_name, customer, active, source_updated_at, refreshed_at⟩],
     nextId + 1)

/-- Processing of one CSV data row (app.py lines 406-434): rows with an empty
resolved code are skipped; the active flag is decoded according to which
alias matched (`Job Status` uses the `"A"` marker, a plain `active` column is
parsed as an integer defaulting to 1). The accumulator carries the cache, the
fresh rowid counter and the synced-row count. -/
def syncRow (fieldnames : List String) (job_code_col job_name_col : String)
    (customer_col active_col source_updated_at_col : Option String) (now : String)
    (acc : List JobCacheRow × Nat × Nat) (row : List String) :
    List JobCacheRow × Nat × Nat :=
  let job_code := cellText fieldnames row job_code_col
  if job_code = "" then acc
  else
    let job_name := cellText fieldnames row job_name_col
    let customer := match customer_col with
      | some c => cellText fieldnames row c
      | none => ""
    let active_raw := match active_col with
      | some c => cellText fieldnames row c
      | none => ""
    let active : Int :=
      if active_col = some "Job Status" then
        (if pyUpper active_raw = "A" then 1 else 0)
      else if active_raw = "" then 1
      else (pyInt active_raw).getD 1
    let source_updated_at : Option String :=
      match source_updated_at_col with
      | some c => (if cellText fieldnames row c = "" then none else some (cellText fieldnames row c))
      | none => none
    let next := upsert_job_cache_row acc.1 acc.2.1 job_code job_name customer active
      source_updated_at now
    (next.1, next.2, acc.2.2 + 1)

/-- The missing-required-columns list built at app.py lines 398-402: one
entry per required field (code, name) that no alias matched. -/
def requiredColsMissing (fieldnames : List String) : List String :=
  (if (first_present fieldnames ["job_code", "Job #", "Job#", "Job Number"]).isNone
    then ["job_code or Job #"] else []) ++
  (if (first_present fieldnames ["job_name", "Job Name"]).isNone
    then ["job_name or Job Name"] else [])

/-- Model of `refresh_jobs_cache` on a resolved CSV source (app.py lines
374-436): require a header row, locate the required and optional columns
through their alias lists, fail before touching any row when a required
column is missing, then upsert every row with a non-empty code. Returns the
new cache, the next rowid and the synced-row count; errors are the raised
`RuntimeError` messages. -/
def refresh_jobs_cache (now : String) (csv : CsvSource) (cache : List JobCacheRow)
    (nextId : Nat) : Except String (List JobCacheRow × Nat × Nat) :=
  if csv.fieldnames = [] then .error "CSV is missing a header row."
  else if requiredColsMissing csv.fieldnames ≠ [] then
    .error ("CSV missing required columns: "
      ++ String.intercalate ", " (requiredColsMissing csv.fieldnames))
  else
    match first_present csv.fieldnames ["job_code", "Job #", "Job#", "Job Number"],
        first_present csv.fieldnames ["job_name", "Job Name"] with
    | some job_code_col, some job_name_col =>
      .ok (csv.rows.foldl
        (syncRow csv.fieldnames job_code_col job_name_col
          (first_present csv.fieldnames ["customer", "Customer Name"])
          (first_present csv.fieldnames ["active", "Job Status"])
          (first_present csv.fieldnames ["source_updated_at"]) now)
        (cache, nextId, 0))
    | _, _ => .error "CSV missing required columns: "

/-- Model of the POST `/jobs/refresh` route (app.py lines 669-679): commit the
synced cache on success, roll back to the old cache on any error. Returns the
durable cache and rowid counter. -/
def refresh_jobs (now : String) (csv : CsvSource) (cache : List JobCacheRow) (nextId : Nat) :
    List JobCacheRow × Nat :=
  match refresh_jobs_cache now csv cache nextId with
  | .ok r => (r.1, r.2.1)
  | .error _ => (cache, nextId)

/-! ## Sequence counter lemmas -/

theorem seqRow_insertOrIgnoreSeq_self (s : List (Nat × Nat)) (y : Nat) :
    seqRow (insertOrIgnoreSeq s y) y = some ((seqRow s y).getD 0) := by
  unfold insertOrIgnoreSeq seqRow
  cases h : s.find? (fun r => r.1 == y) with
  | none => simp [h, List.find?_append]
  | some r => simp [h]

theorem seqRow_insertOrIgnoreSeq_other (s : List (Nat × Nat)) (y y' : Nat) (h : y' ≠ y) :
    seqRow (insertOrIgnoreSeq s y) y' = seqRow s y' := by
  unfold insertOrIgnoreSeq seqRow
  cases hf : s.find? (fun r => r.1 == y) with
  | none =>
    have : (y == y') = false := by simp [Ne.symm h]
    simp [List.find?_append, this]
  | some r => simp

theorem seqRow_cons (r : Nat × Nat) (t : List (Nat × Nat)) (y : Nat) :
    seqRow (r :: t) y = if r.1 == y then some r.2 else seqRow t y := by
  unfold seqRow
  cases h : (r.1 == y) <;> simp [List.find?_cons, h]

theorem updateSeq_cons (r : Nat × Nat) (t : List (Nat × Nat)) (y v : Nat) :
    updateSeq (r :: t) y v = (if r.1 == y then (r.1, v) else r) :: updateSeq t y v := rfl

theorem seqRow_updateSeq_self (s : List (Nat × Nat)) (y v : Nat) :
    seqRow (updateSeq s y v) y = (seqRow s y).map (fun _ => v) := by
  induction s with
  | nil => rfl
  | cons r t ih =>
    rw [updateSeq_cons, seqRow_cons, seqRow_cons]
    cases h : (r.1 == y) with
    | true => simp [h]
    | false => simpa [h] using ih

theorem seqRow_updateSeq_other (s : List (Nat × Nat)) (y v y' : Nat) (h : y' ≠ y) :
    seqRow (updateSeq s y v) y' = seqRow s y' := by
  induction s with
  | nil => rfl
  | cons r t ih =>
    rw [updateSeq_cons, seqRow_cons, seqRow_cons]
    cases hr : (r.1 == y) with
    | true =>
      have hb : (r.1 == y') = false := by
        have := eq_of_beq hr
        simp [this, Ne.symm h]
      simp [hb, ih]
    | false =>
      cases hc : (r.1 == y') <;> simp [hc, ih]

theorem next_ticket_number_next_value (s : List (Nat × Nat)) (y : Nat) :
    (next_ticket_number s y).next_value = (seqRow s y).getD 0 + 1 := by
  unfold next_ticket_number
  simp [seqRow_insertOrIgnoreSeq_self]

theorem next_ticket_number_seqTable_self (s : List (Nat × Nat)) (y : Nat) :
    seqRow (next_ticket_number s y).seqTable y = some ((seqRow s y).getD 0 + 1) := by
  unfold next_ticket_number
  simp only
  rw [seqRow_updateSeq_self, seqRow_insertOrIgnoreSeq_self]
  simp [seqRow_insertOrIgnoreSeq_self]

theorem next_ticket_number_seqTable_other (s : List (Nat × Nat)) (y y' : Nat) (h : y' ≠ y) :
    seqRow (next_ticket_number s y).seqTable y' = seqRow s y' := by
  unfold next_ticket_number
  simp only
  rw [seqRow_updateSeq_other _ _ _ _ h, seqRow_insertOrIgnoreSeq_other _ _ _ h]

theorem next_ticket_number_year (s : List (Nat × Nat)) (y : Nat) :
    (next_ticket_number s y).year = y := rfl

theorem next_ticket_number_number (s : List (Nat × Nat)) (y : Nat) :
    (next_ticket_number s y).ticket_number
      = ticketNumberString y ((seqRow s y).getD 0 + 1) := by
  unfold next_ticket_number
  simp [seqRow_insertOrIgnoreSeq_self]

/-! ## Outcome characterisation of one ticket creation -/

theorem new_ticket_of_resolve_error (now : DateTime) (form : TicketForm)
    (render : Ticket → Option (List Nat)) (insertOk : Bool) (st : DBState) (msg : String)
    (h : validateAndResolve form st = .error msg) :
    new_ticket now form render insertOk st = .validationError msg := by
  unfold new_ticket
  rw [h]

theorem new_ticket_of_resolve_ok (now : DateTime) (form : TicketForm)
    (render : Ticket → Option (List Nat)) (insertOk : Bool) (st : DBState) (r : Resolved)
    (h : validateAndResolve form st = .ok r) :
    new_ticket now form render insertOk st = txPhase now r render insertOk st := by
  unfold new_ticket
  rw [h]

theorem txPhase_of_createdAt_error (now : DateTime) (r : Resolved)
    (render : Ticket → Option (List Nat)) (insertOk : Bool) (st : DBState) (msg : String)
    (h : createdAtResult now r = .error msg) :
    txPhase now r render insertOk st
      = .txValidationError msg (next_ticket_number st.ticket_sequence now.date.year).seqTable := by
  unfold txPhase
  rw [h]

theorem txPhase_of_createdAt_ok (now : DateTime) (r : Resolved)
    (render : Ticket → Option (List Nat)) (insertOk : Bool) (st : DBState) (created_at : String)
    (h : createdAtResult now r = .ok created_at) :
    txPhase now r render insertOk st = txFinish now r render insertOk st created_at := by
  unfold txPhase
  rw [h]

theorem txFinish_of_render_none (now : DateTime) (r : Resolved)
    (render : Ticket → Option (List Nat)) (insertOk : Bool) (st : DBState) (created_at : String)
    (hr : render (mkRow now r st created_at) = none) :
    txFinish now r render insertOk st created_at = .txError := by
  unfold txFinish
  rw [hr]

theorem txFinish_of_render_some (now : DateTime) (r : Resolved)
    (render : Ticket → Option (List Nat)) (st : DBState) (created_at : String) (bytes : List Nat)
    (hr : render (mkRow now r st created_at) = some bytes) :
    txFinish now r render true st created_at
      = .success (next_ticket_number st.ticket_sequence now.date.year).ticket_number
          (commitState now r st created_at bytes) := by
  unfold txFinish
  rw [hr]
  rfl

theorem txFinish_of_insert_fail (now : DateTime) (r : Resolved)
    (render : Ticket → Option (List Nat)) (st : DBState) (created_at : String) (bytes : List Nat)
    (hr : render (mkRow now r st created_at) = some bytes) :
    txFinish now r render false st created_at = .txError := by
  unfold txFinish
  rw [hr]
  rfl

/-- Inversion: a successful ticket creation pins down every piece of the
transaction — the resolution, the created-at text, the rendered bytes, the
returned number and the committed state. -/
theorem new_ticket_success_inv (now : DateTime) (form : TicketForm)
    (render : Ticket → Option (List Nat)) (insertOk : Bool) (st : DBState)
    (tn : String) (st2 : DBState)
    (h : new_ticket now form render insertOk st = .success tn st2) :
    ∃ r created_at bytes,
      validateAndResolve form st = .ok r ∧
      createdAtResult now r = .ok created_at ∧
      render (mkRow now r st created_at) = some bytes ∧
      insertOk = true ∧
      tn = (next_ticket_number st.ticket_sequence now.date.year).ticket_number ∧
      st2 = commitState now r st created_at bytes := by
  cases hv : validateAndResolve form st with
  | error msg =>
    rw [new_ticket_of_resolve_error now form render insertOk st msg hv] at h
    exact (NewTicketOutcome.noConfusion h)
  | ok r =>
    rw [new_ticket_of_resolve_ok now form render insertOk st r hv] at h
    cases hc : createdAtResult now r with
    | error m =>
      rw [txPhase_of_createdAt_error now r render insertOk st m hc] at h
      exact (NewTicketOutcome.noConfusion h)
    | ok created_at =>
      rw [txPhase_of_createdAt_ok now r render insertOk st created_at hc] at h
      cases hr : render (mkRow now r st created_at) with
      | none =>
        rw [txFinish_of_render_none now r render insertOk st created_at hr] at h
        exact (NewTicketOutcome.noConfusion h)
      | some bytes =>
        cases insertOk with
        | false =>
          rw [txFinish_of_insert_fail now r render st created_at bytes hr] at h
          exact (NewTicketOutcome.noConfusion h)
        | true =>
          rw [txFinish_of_render_some now r render st created_at bytes hr] at h
          injection h with e1 e2
          exact ⟨r, created_at, bytes, rfl, hc, hr, rfl, e1.symm, e2.symm⟩

/-- Case analysis of one `new_ticket` request at the durable-state level:
either nothing durable changed, or the request committed and the durable
state is a `commitState`. -/
theorem durable_new_ticket_cases (now : DateTime) (form : TicketForm)
    (render : Ticket → Option (List Nat)) (insertOk : Bool) (st : DBState) :
    durableState st (new_ticket now form render insertOk st) = st ∨
    ∃ r created_at bytes, validateAndResolve form st = .ok r ∧
      durableState st (new_ticket now form render insertOk st)
        = commitState now r st created_at bytes := by
  cases hn : new_ticket now form render insertOk st with
  | validationError msg => exact Or.inl rfl
  | txValidationError msg tbl => exact Or.inl rfl
  | txError => exact Or.inl rfl
  | success tn st2 =>
    obtain ⟨r, ca, bytes, hv, _, _, _, _, hst2⟩ :=
      new_ticket_success_inv now form render insertOk st tn st2 hn
    exact Or.inr ⟨r, ca, bytes, hv, by subst hst2; rfl⟩

/-! ## The per-year gapless-sequence invariant -/

/-- Tickets committed under a given (allocation-time) year. -/
def yearTickets (st : DBState) (y : Nat) : List Ticket :=
  st.tickets.filter (fun t => t.ticket_year == y)

/-- Invariant tying the counter to the committed tickets: for every year the
committed sequence values are exactly `[1, ..., N]` in insertion order and
the counter stores `N`. -/
def SeqInv (st : DBState) : Prop :=
  ∀ y, ((yearTickets st y).map (fun t => t.ticket_sequence))
        = List.range' 1 (yearTickets st y).length ∧
       counterVal st y = (yearTickets st y).length

theorem seqInv_initState : SeqInv initState := fun _ => ⟨rfl, rfl⟩

theorem mkRow_ticket_sequence (now : DateTime) (r : Resolved) (st : DBState) (ca : String) :
    (mkRow now r st ca).ticket_sequence = counterVal st now.date.year + 1 :=
  next_ticket_number_next_value _ _

theorem counterVal_commitState_self (now : DateTime) (r : Resolved) (st : DBState)
    (created_at : String) (bytes : List Nat) :
    counterVal (commitState now r st created_at bytes) now.date.year
      = counterVal st now.date.year + 1 := by
  show (seqRow (next_ticket_number st.ticket_sequence now.date.year).seqTable now.date.year).getD 0
      = _
  rw [next_ticket_number_seqTable_self]
  rfl

theorem counterVal_commitState_other (now : DateTime) (r : Resolved) (st : DBState)
    (created_at : String) (bytes : List Nat) (y : Nat) (h : y ≠ now.date.year) :
    counterVal (commitState now r st created_at bytes) y = counterVal st y := by
  show (seqRow (next_ticket_number st.ticket_sequence now.date.year).seqTable y).getD 0 = _
  rw [next_ticket_number_seqTable_other _ _ _ h]
  rfl

theorem yearTickets_commitState (now : DateTime) (r : Resolved) (st : DBState)
    (created_at : String) (bytes : List Nat) (y : Nat) :
    yearTickets (commitState now r st created_at bytes) y
      = yearTickets st y ++
        (if now.date.year = y
          then [{ mkRow now r st created_at with pdf_blob := bytes }] else []) := by
  show List.filter _ (st.tickets ++ [_]) = _
  rw [List.filter_append]
  congr 1
  have hty : (mkRow now r st created_at).ticket_year = now.date.year := rfl
  by_cases h : now.date.year = y
  · rw [if_pos h]
    have hb : (({ mkRow now r st created_at with pdf_blob := bytes } : Ticket).ticket_year == y)
        = true := by
      show ((mkRow now r st created_at).ticket_year == y) = true
      rw [hty]
      simp [h]
    simp [List.filter_cons, hb]
  · rw [if_neg h]
    have hb : (({ mkRow now r st created_at with pdf_blob := bytes } : Ticket).ticket_year == y)
        = false := by
      show ((mkRow now r st created_at).ticket_year == y) = false
      rw [hty]
      simp [h]
    simp [List.filter_cons, hb]

theorem seqInv_commitState (now : DateTime) (r : Resolved) (st : DBState)
    (created_at : String) (bytes : List Nat) (hInv : SeqInv st) :
    SeqInv (commitState now r st created_at bytes) := by
  intro y
  obtain ⟨hmap, hcnt⟩ := hInv y
  rw [yearTickets_commitState]
  by_cases h : now.date.year = y
  · rw [if_pos h]
    have hseq : ({ mkRow now r st created_at with pdf_blob := bytes } : Ticket).ticket_sequence
        = (yearTickets st y).length + 1 := by
      show (mkRow now r st created_at).ticket_sequence = _
      rw [mkRow_ticket_sequence, h, hcnt]
    constructor
    · rw [List.map_append, hmap, List.length_append]
      simp only [List.map_cons, List.map_nil, List.length_cons, List.length_nil]
      rw [hseq, List.range'_concat]
      congr 1
      simp [Nat.add_comm]
    · rw [List.length_append]
      simp only [List.length_cons, List.length_nil]
      have := counterVal_commitState_self now r st created_at bytes
      rw [h] at this
      rw [this, hcnt]
  · rw [if_neg h]
    simp only [List.append_nil]
    refine ⟨hmap, ?_⟩
    rw [counterVal_commitState_other now r st created_at bytes y (fun hy => h hy.symm), hcnt]

theorem seqInv_reachable (st : DBState) (h : Reachable st) : SeqInv st := by
  induction h with
  | init => exact seqInv_initState
  | create now form render insertOk st hst ih =>
    rcases durable_new_ticket_cases now form render insertOk st with hd | ⟨r, ca, bs, _, hd⟩
    · rw [hd]; exact ih
    · rw [hd]; exact seqInv_commitState now r st ca bs ih
  | refs st jc tr mt hst ih =>
    intro y
    exact ih y

/-! ## Validation branch lemmas -/

theorem validateAndResolve_of_missing (form : TicketForm) (st : DBState)
    (hdir : formDirection form = "IN" ∨ formDirection form = "OUT")
    (hmiss : pyStrip form.job_entry = "" ∨ pyStrip form.truck_entry = "" ∨
      pyStrip form.material_entry = "" ∨ formQuantity form = "" ∨ formUnit form = "") :
    validateAndResolve form st
      = .error "Job, truck, material, quantity, and unit are required." := by
  unfold validateAndResolve
  rw [if_neg (not_not_intro hdir), if_pos hmiss]

theorem validateAndResolve_of_ok (form : TicketForm) (st : DBState) (q : SqlReal)
    (hdir : formDirection form = "IN" ∨ formDirection form = "OUT")
    (hmiss : ¬(pyStrip form.job_entry = "" ∨ pyStrip form.truck_entry = "" ∨
      pyStrip form.material_entry = "" ∨ formQuantity form = "" ∨ formUnit form = ""))
    (hq : pyFloat (formQuantity form) = some q) :
    validateAndResolve form st = .ok (resolvedOf form st q) := by
  unfold validateAndResolve
  rw [if_neg (not_not_intro hdir), if_neg hmiss, hq]

/-! ## Concrete request fixtures used by the claim witnesses -/

/-- A concrete wall-clock instant. -/
def wNow : DateTime := ⟨⟨2026, 10, 12⟩, 9, 30, 0⟩

/-- The ticket form of the spec's example scenario: direction IN, free job
text with a separator, truck T12, material Gravel, quantity 12.5, unit Ton. -/
def wForm : TicketForm :=
  { direction := "IN", job_id := "", job_entry := "J100 - Main St", truck_id := ""
    truck_entry := "T12", material_id := "", material_entry := "Gravel", customer := ""
    quantity := some "12.5", unit := some "Ton", notes := "", use_now := true
    custom_datetime := none }

/-- A renderer that always succeeds with fixed bytes. -/
def wRender : Ticket → Option (List Nat) := fun _ => some [37]

/-- A renderer that always raises. -/
def wRenderFail : Ticket → Option (List Nat) := fun _ => none

/-- Durable state after one successful example creation on a fresh database. -/
def wState1 : DBState := durableState initState (new_ticket wNow wForm wRender true initState)

/-- C1: for every calendar year, the sequence values of committed tickets of
that year are exactly 1..N (a permutation of the contiguous range, hence no
duplicates and no gaps) where N is the number of tickets committed that year,
and the counter committed by `next_ticket_number` always equals that count —
the counter increment is only ever durable together with its ticket insert,
in every reachable state of the serialised `BEGIN IMMEDIATE` transaction
model, so two concurrent creations for one year can never share a value. -/
theorem C1_year_sequences_gapless (st : DBState) (h : Reachable st) (y : Nat) :
    ((yearTickets st y).map (fun t => t.ticket_sequence)).Perm
      (List.range' 1 (yearTickets st y).length) ∧
    counterVal st y = (yearTickets st y).length := by
  obtain ⟨h1, h2⟩ := seqInv_reachable st h y
  exact ⟨h1 ▸ List.Perm.refl _, h2⟩

/-- Witness for C1 at a concrete reachable state holding one 2026 ticket. -/
theorem C1_year_sequences_gapless_witness :
    ((yearTickets wState1 2026).map (fun t => t.ticket_sequence)).Perm
      (List.range' 1 (yearTickets wState1 2026).length) ∧
    counterVal wState1 2026 = (yearTickets wState1 2026).length :=
  C1_year_sequences_gapless wState1
    (Reachable.create wNow wForm wRender true initState Reachable.init) 2026

/-- Inversion: a passed validation pins down the resolved record and the fact
that every guard held. -/
theorem validateAndResolve_ok_inv (form : TicketForm) (st : DBState) (r : Resolved)
    (h : validateAndResolve form st = .ok r) :
    ∃ q, pyFloat (formQuantity form) = some q ∧ r = resolvedOf form st q ∧
      (formDirection form = "IN" ∨ formDirection form = "OUT") ∧
      ¬(pyStrip form.job_entry = "" ∨ pyStrip form.truck_entry = "" ∨
        pyStrip form.material_entry = "" ∨ formQuantity form = "" ∨ formUnit form = "") := by
  unfold validateAndResolve at h
  by_cases h1 : ¬(formDirection form = "IN" ∨ formDirection form = "OUT")
  · rw [if_pos h1] at h
    exact Except.noConfusion h
  · rw [if_neg h1] at h
    by_cases h2 : pyStrip form.job_entry = "" ∨ pyStrip form.truck_entry = "" ∨
        pyStrip form.material_entry = "" ∨ formQuantity form = "" ∨ formUnit form = ""
    · rw [if_pos h2] at h
      exact Except.noConfusion h
    · rw [if_neg h2] at h
      cases hq : pyFloat (formQuantity form) with
      | none =>
        rw [hq] at h
        exact Except.noConfusion h
      | some q =>
        rw [hq] at h
        exact ⟨q, rfl, (Except.ok.inj h).symm, not_not.mp h1, h2⟩

/-- C2: when any step after sequence allocation fails (document rendering,
file write, INSERT or commit), the whole transaction is rolled back — the
durable counter of every year and the tickets table are exactly their
pre-request values, so the allocated number is not consumed (any success from
that same state still allocates counter + 1); and a committed ticket's stored
blob is exactly the successfully rendered document of its own row. -/
theorem C2_abort_rolls_back_allocation (now : DateTime) (form : TicketForm)
    (render : Ticket → Option (List Nat)) (insertOk : Bool) (st : DBState) :
    (new_ticket now form render insertOk st = .txError →
      (∀ y, counterVal (durableState st (new_ticket now form render insertOk st)) y
          = counterVal st y) ∧
      (durableState st (new_ticket now form render insertOk st)).tickets = st.tickets) ∧
    (∀ tn st2, new_ticket now form render insertOk st = .success tn st2 →
      ∃ t, st2.tickets = st.tickets ++ [t] ∧
        render { t with pdf_blob := [] } = some t.pdf_blob ∧
        t.ticket_sequence = counterVal st now.date.year + 1) := by
  constructor
  · intro h
    rw [h]
    exact ⟨fun y => rfl, rfl⟩
  · intro tn st2 h
    obtain ⟨r, ca, bytes, hv, hc, hr, hI, htn, hst2⟩ :=
      new_ticket_success_inv now form render insertOk st tn st2 h
    refine ⟨{ mkRow now r st ca with pdf_blob := bytes }, ?_, ?_, ?_⟩
    · rw [hst2]
      rfl
    · show render { mkRow now r st ca with pdf_blob := [] } = some bytes
      have he : ({ mkRow now r st ca with pdf_blob := [] } : Ticket) = mkRow now r st ca := rfl
      rw [he, hr]
    · show (mkRow now r st ca).ticket_sequence = _
      exact mkRow_ticket_sequence now r st ca

/-- Witness for C2: a failing render rolls a fresh database back, and the
example creation commits its rendered bytes. -/
theorem C2_abort_rolls_back_allocation_witness :
    ((∀ y, counterVal (durableState initState (new_ticket wNow wForm wRenderFail true initState)) y
        = counterVal initState y) ∧
      (durableState initState (new_ticket wNow wForm wRenderFail true initState)).tickets
        = initState.tickets) ∧
    (∃ t, wState1.tickets = initState.tickets ++ [t] ∧
      wRender { t with pdf_blob := [] } = some t.pdf_blob ∧
      t.ticket_sequence = counterVal initState wNow.date.year + 1) :=
  ⟨(C2_abort_rolls_back_allocation wNow wForm wRenderFail true initState).1 (by decide),
   (C2_abort_rolls_back_allocation wNow wForm wRender true initState).2
     "DT-2026-000001" wState1 (by decide)⟩

theorem createdAtResult_of_custom (now : DateTime) (r : Resolved) (c : String)
    (hu : r.use_now = false) (hc : r.custom_datetime = some c) :
    createdAtResult now r = customCreatedAt c := by
  unfold createdAtResult
  rw [hu, hc]
  rfl

theorem ticketNumberString_one (y : Nat) :
    ticketNumberString y 1 = "DT-" ++ toString y ++ "-000001" := by
  unfold ticketNumberString
  rw [String.append_assoc ("DT-" ++ toString y) "-" (zeroPad 6 1)]
  rfl

/-- A throwaway ticket value for total projections out of options. -/
def wDefaultTicket : Ticket :=
  ⟨0, "", 0, 0, "", "", none, "", "", "", none, "", none, "", ⟨0, 1⟩, "", "", "", []⟩

/-- C10: the stored `ticket_year`, the sequence value and the year inside
`ticket_number` all come from the wall clock at allocation time
(`datetime.now().year` inside `next_ticket_number`), never from the ticket's
`created_at`: with the use-now flag off, `created_at` is the custom
timestamp, which may carry a completely different year. -/
theorem C10_numbering_uses_wall_clock_year (now : DateTime) (form : TicketForm)
    (render : Ticket → Option (List Nat)) (insertOk : Bool) (st : DBState)
    (tn : String) (st2 : DBState)
    (h : new_ticket now form render insertOk st = .success tn st2)
    (t : Ticket) (ht : st2.tickets.getLast? = some t) :
    t.ticket_year = now.date.year ∧
    t.ticket_sequence = counterVal st now.date.year + 1 ∧
    t.ticket_number = ticketNumberString now.date.year (counterVal st now.date.year + 1) ∧
    (∀ c dt, form.use_now = false → form.custom_datetime = some c →
      fromIsoformat c = some dt → t.created_at = isoformatSeconds dt) := by
  obtain ⟨r, ca, bytes, hv, hc, hr, hI, htn, hst2⟩ :=
    new_ticket_success_inv now form render insertOk st tn st2 h
  subst hst2
  have hlast : (commitState now r st ca bytes).tickets.getLast?
      = some { mkRow now r st ca with pdf_blob := bytes } := by
    show (st.tickets ++ [_]).getLast? = _
    rw [List.getLast?_concat]
  rw [hlast] at ht
  obtain rfl : ({ mkRow now r st ca with pdf_blob := bytes } : Ticket) = t := Option.some.inj ht
  obtain ⟨q, hq, hrq, _, _⟩ := validateAndResolve_ok_inv form st r hv
  refine ⟨rfl, mkRow_ticket_sequence now r st ca, ?_, ?_⟩
  · show (next_ticket_number st.ticket_sequence now.date.year).ticket_number = _
    exact next_ticket_number_number _ _
  · intro c dt hn hcd hparse
    show ca = isoformatSeconds dt
    have hu : r.use_now = false := by rw [hrq]; exact hn
    have hcdt : r.custom_datetime = some c := by rw [hrq]; exact hcd
    rw [createdAtResult_of_custom now r c hu hcdt] at hc
    have hce : c ≠ "" := by
      intro he
      rw [he] at hparse
      exact Option.noConfusion hparse
    unfold customCreatedAt at hc
    rw [if_neg hce, hparse] at hc
    exact (Except.ok.inj hc).symm

/-- The custom-timestamp variant of the example form: same data, but with a
timestamp from 2020 instead of "now". -/
def wFormCustom : TicketForm :=
  { wForm with use_now := false, custom_datetime := some "2020-01-05T08:00" }

/-- Durable state after one successful custom-timestamp creation. -/
def wStateC : DBState := durableState initState (new_ticket wNow wFormCustom wRender true initState)

/-- The single ticket of `wStateC`. -/
def wTicketC : Ticket := (wStateC.tickets.getLast?).getD wDefaultTicket

/-- Witness for C10: a ticket created in 2026 with a custom 2020 timestamp is
numbered and counted under 2026 while its `created_at` stays in 2020. -/
theorem C10_numbering_uses_wall_clock_year_witness :
    wTicketC.ticket_year = wNow.date.year ∧
    wTicketC.ticket_sequence = counterVal initState wNow.date.year + 1 ∧
    wTicketC.ticket_number
      = ticketNumberString wNow.date.year (counterVal initState wNow.date.year + 1) ∧
    (∀ c dt, wFormCustom.use_now = false → wFormCustom.custom_datetime = some c →
      fromIsoformat c = some dt → wTicketC.created_at = isoformatSeconds dt) :=
  C10_numbering_uses_wall_clock_year wNow wFormCustom wRender true initState
    "DT-2026-000001" wStateC (by decide) wTicketC (by decide)

/-- C5: with no resolving job identifier, the stored snapshot splits the free
job text at the first " - " into trimmed code and name, or uses the whole
text for both; and the spec's example scenario (direction IN, job text
"J100 - Main St", truck "T12", material "Gravel", quantity "12.5", unit
"Ton", first ticket of the year) stores exactly the claimed snapshot with
number DT-(current year)-000001. -/
theorem C5_free_text_job_snapshot :
    (∀ (now : DateTime) (form : TicketForm) (render : Ticket → Option (List Nat))
        (insertOk : Bool) (st : DBState) (tn : String) (st2 : DBState),
      new_ticket now form render insertOk st = .success tn st2 →
      resolvedJob form st = none →
      ∀ t, st2.tickets.getLast? = some t →
        (∀ before after, splitFirst jobSep (pyStrip form.job_entry).toList = some (before, after) →
          t.job_code_snapshot = pyStrip (String.mk before) ∧
          t.job_name_snapshot = pyStrip (String.mk after)) ∧
        (splitFirst jobSep (pyStrip form.job_entry).toList = none →
          t.job_code_snapshot = pyStrip form.job_entry ∧
          t.job_name_snapshot = pyStrip form.job_entry)) ∧
    (∀ (now : DateTime) (render : Ticket → Option (List Nat)) (tn : String) (st2 : DBState),
      new_ticket now wForm render true initState = .success tn st2 →
      tn = "DT-" ++ toString now.date.year ++ "-000001" ∧
      ∃ t, st2.tickets = [t] ∧
        t.job_code_snapshot = "J100" ∧ t.job_name_snapshot = "Main St" ∧
        t.truck_number_snapshot = "T12" ∧ t.material_name_snapshot = "Gravel" ∧
        t.quantity.val = 25 / 2 ∧ t.unit = "Ton" ∧
        t.ticket_sequence = 1 ∧ t.ticket_year = now.date.year ∧ t.ticket_number = tn) := by
  constructor
  · intro now form render insertOk st tn st2 h hnj t ht
    obtain ⟨r, ca, bytes, hv, hc, hr, hI, htn, hst2⟩ :=
      new_ticket_success_inv now form render insertOk st tn st2 h
    subst hst2
    have hlast : (commitState now r st ca bytes).tickets.getLast?
        = some { mkRow now r st ca with pdf_blob := bytes } := by
      show (st.tickets ++ [_]).getLast? = _
      rw [List.getLast?_concat]
    rw [hlast] at ht
    obtain rfl : ({ mkRow now r st ca with pdf_blob := bytes } : Ticket) = t := Option.some.inj ht
    obtain ⟨q, hq, hrq, _, _⟩ := validateAndResolve_ok_inv form st r hv
    have hcode : ({ mkRow now r st ca with pdf_blob := bytes } : Ticket).job_code_snapshot
        = (jobEntrySnapshot (pyStrip form.job_entry)).1 := by
      show r.job_code_snapshot = _
      rw [hrq]
      show (jobSnapshotFields form st).2.1 = _
      unfold jobSnapshotFields
      rw [hnj]
    have hname : ({ mkRow now r st ca with pdf_blob := bytes } : Ticket).job_name_snapshot
        = (jobEntrySnapshot (pyStrip form.job_entry)).2 := by
      show r.job_name_snapshot = _
      rw [hrq]
      show (jobSnapshotFields form st).2.2.1 = _
      unfold jobSnapshotFields
      rw [hnj]
    constructor
    · intro before after hsplit
      rw [hcode, hname]
      unfold jobEntrySnapshot
      rw [hsplit]
      exact ⟨rfl, rfl⟩
    · intro hsplit
      rw [hcode, hname]
      unfold jobEntrySnapshot
      rw [hsplit]
      exact ⟨rfl, rfl⟩
  · intro now render tn st2 h
    obtain ⟨r, ca, bytes, hv, hc, hr, hI, htn, hst2⟩ :=
      new_ticket_success_inv now wForm render true initState tn st2 h
    have hre : r = resolvedOf wForm initState ⟨125, 10⟩ := by
      have hv2 : validateAndResolve wForm initState
          = .ok (resolvedOf wForm initState ⟨125, 10⟩) := rfl
      exact Except.ok.inj (hv.symm.trans hv2)
    subst hst2
    subst hre
    have htn2 : tn = "DT-" ++ toString now.date.year ++ "-000001" := by
      rw [htn, next_ticket_number_number]
      show ticketNumberString now.date.year 1 = _
      exact ticketNumberString_one now.date.year
    refine ⟨htn2, { mkRow now (resolvedOf wForm initState ⟨125, 10⟩) initState ca
        with pdf_blob := bytes }, rfl, rfl, rfl, rfl, rfl, ?_, rfl, ?_, rfl, htn.symm⟩
    · show (SqlReal.mk 125 10).val = 25 / 2
      unfold SqlReal.val
      norm_num
    · show (mkRow now (resolvedOf wForm initState ⟨125, 10⟩) initState ca).ticket_sequence = 1
      rw [mkRow_ticket_sequence]
      rfl

/-- The single ticket of `wState1`. -/
def wTicket1 : Ticket := (wState1.tickets.getLast?).getD wDefaultTicket

/-- Witness for C5: the example creation on a fresh database, checked both
through the generic split statement and the example scenario itself. -/
theorem C5_free_text_job_snapshot_witness :
    ((∀ before after, splitFirst jobSep (pyStrip wForm.job_entry).toList = some (before, after) →
        wTicket1.job_code_snapshot = pyStrip (String.mk before) ∧
        wTicket1.job_name_snapshot = pyStrip (String.mk after)) ∧
      (splitFirst jobSep (pyStrip wForm.job_entry).toList = none →
        wTicket1.job_code_snapshot = pyStrip wForm.job_entry ∧
        wTicket1.job_name_snapshot = pyStrip wForm.job_entry)) ∧
    ("DT-2026-000001" = "DT-" ++ toString wNow.date.year ++ "-000001" ∧
      ∃ t, wState1.tickets = [t] ∧
        t.job_code_snapshot = "J100" ∧ t.job_name_snapshot = "Main St" ∧
        t.truck_number_snapshot = "T12" ∧ t.material_name_snapshot = "Gravel" ∧
        t.quantity.val = 25 / 2 ∧ t.unit = "Ton" ∧
        t.ticket_sequence = 1 ∧ t.ticket_year = wNow.date.year ∧ t.ticket_number = "DT-2026-000001") :=
  ⟨C5_free_text_job_snapshot.1 wNow wForm wRender true initState "DT-2026-000001" wState1
      (by decide) (by decide) wTicket1 (by decide),
   C5_free_text_job_snapshot.2 wNow wRender "DT-2026-000001" wState1 (by decide)⟩

/-- A request with every text supplied but the quantity and unit fields
absent from the form entirely. -/
def c6Form : TicketForm :=
  { direction := "IN", job_id := "", job_entry := "J1", truck_id := ""
    truck_entry := "T1", material_id := "", material_entry := "M1", customer := ""
    quantity := none, unit := none, notes := "", use_now := true
    custom_datetime := none }

/-- Counterexample to C6 as stated: a creation request whose quantity and
unit fields are absent does not fail validation — the handler defaults them
to "1" and "Load" and commits a ticket. -/
theorem C6_counterexample_quantity_defaulted :
    formQuantity c6Form = "1" ∧ formUnit c6Form = "Load" ∧
    (∃ tn st2, new_ticket wNow c6Form wRender true initState = .success tn st2) ∧
    (durableState initState (new_ticket wNow c6Form wRender true initState)).tickets ≠ [] :=
  ⟨rfl, rfl,
   ⟨"DT-2026-000001", durableState initState (new_ticket wNow c6Form wRender true initState),
     by decide⟩,
   by decide⟩

/-- C6 (amended): with a valid direction, a request whose job, truck or
material text is empty — or whose quantity or unit strips to empty, which
given the "1"/"Load" defaulting means a whitespace-only value — is rejected
with the required-fields validation error before the transaction starts, and
the durable database is unchanged; an absent or empty quantity or unit is
instead silently defaulted (see the counterexample). -/
theorem C6_required_fields_validated (now : DateTime) (form : TicketForm)
    (render : Ticket → Option (List Nat)) (insertOk : Bool) (st : DBState)
    (hdir : formDirection form = "IN" ∨ formDirection form = "OUT")
    (hmiss : pyStrip form.job_entry = "" ∨ pyStrip form.truck_entry = "" ∨
      pyStrip form.material_entry = "" ∨ formQuantity form = "" ∨ formUnit form = "") :
    new_ticket now form render insertOk st
      = .validationError "Job, truck, material, quantity, and unit are required." ∧
    durableState st (new_ticket now form render insertOk st) = st := by
  have h := validateAndResolve_of_missing form st hdir hmiss
  have hn := new_ticket_of_resolve_error now form render insertOk st _ h
  exact ⟨hn, by rw [hn]; rfl⟩

/-- The example form with an empty truck text. -/
def c6wForm : TicketForm := { wForm with truck_entry := "" }

/-- Witness for the amended C6: an empty truck text is rejected with no
durable change. -/
theorem C6_required_fields_validated_witness :
    new_ticket wNow c6wForm wRender true initState
      = .validationError "Job, truck, material, quantity, and unit are required." ∧
    durableState initState (new_ticket wNow c6wForm wRender true initState) = initState :=
  C6_required_fields_validated wNow c6wForm wRender true initState
    (by decide) (by decide)

/-- Helper for C7: the in-transaction validation error branch, with the
uncommitted counter table it carries. -/
theorem new_ticket_txValidation (now : DateTime) (form : TicketForm)
    (render : Ticket → Option (List Nat)) (insertOk : Bool) (st : DBState) (r : Resolved)
    (hv : validateAndResolve form st = .ok r)
    (hn : r.use_now = false)
    (hc : r.custom_datetime = none ∨ r.custom_datetime = some "" ∨
      (∃ c, r.custom_datetime = some c ∧ fromIsoformat c = none)) :
    ∃ msg, createdAtResult now r = .error msg ∧
      new_ticket now form render insertOk st
        = .txValidationError msg (next_ticket_number st.ticket_sequence now.date.year).seqTable := by
  have hone : ∃ msg, createdAtResult now r = .error msg := by
    unfold createdAtResult
    rw [hn]
    rcases hc with h | h | ⟨c, h, hp⟩
    · rw [h]
      exact ⟨_, rfl⟩
    · rw [h]
      refine ⟨"Please select a valid date and time.", ?_⟩
      show customCreatedAt "" = _
      rfl
    · rw [h]
      by_cases he : c = ""
      · subst he
        refine ⟨"Please select a valid date and time.", ?_⟩
        show customCreatedAt "" = _
        rfl
      · refine ⟨"Invalid date format.", ?_⟩
        show customCreatedAt c = _
        unfold customCreatedAt
        rw [if_neg he, hp]
  obtain ⟨msg, hmsg⟩ := hone
  refine ⟨msg, hmsg, ?_⟩
  rw [new_ticket_of_resolve_ok now form render insertOk st r hv,
    txPhase_of_createdAt_error now r render insertOk st msg hmsg]

/-- C7 (amended): with the use-now flag off and a missing, empty or
unparseable custom timestamp, the request fails with a validation error that
is flashed to the caller — but only after `next_ticket_number` has already
updated the counter inside the still-open transaction (the error outcome
carries the incremented table); the transaction is never committed and is
rolled back when the connection closes, so the durable counter and tickets
are unchanged. -/
theorem C7_custom_timestamp_error_after_allocation (now : DateTime) (form : TicketForm)
    (render : Ticket → Option (List Nat)) (insertOk : Bool) (st : DBState) (r : Resolved)
    (hv : validateAndResolve form st = .ok r)
    (hn : r.use_now = false)
    (hc : r.custom_datetime = none ∨ r.custom_datetime = some "" ∨
      (∃ c, r.custom_datetime = some c ∧ fromIsoformat c = none)) :
    ∃ msg, new_ticket now form render insertOk st
        = .txValidationError msg (next_ticket_number st.ticket_sequence now.date.year).seqTable ∧
      (seqRow (next_ticket_number st.ticket_sequence now.date.year).seqTable now.date.year
        = some (counterVal st now.date.year + 1)) ∧
      durableState st (new_ticket now form render insertOk st) = st := by
  obtain ⟨msg, _, hout⟩ := new_ticket_txValidation now form render insertOk st r hv hn hc
  exact ⟨msg, hout, next_ticket_number_seqTable_self _ _, by rw [hout]; rfl⟩

/-- The example form with use-now off and no custom timestamp supplied. -/
def c7Form : TicketForm := { wForm with use_now := false, custom_datetime := none }

/-- Counterexample to C7 as stated ("before any database mutation occurs"):
at a concrete request, the validation error is raised inside the open
transaction with the `ticket_sequence` table already mutated — the table the
error branch observes differs from the pre-request table. -/
theorem C7_counterexample_mutation_precedes_error :
    ∃ msg tbl, new_ticket wNow c7Form wRender true initState = .txValidationError msg tbl ∧
      tbl ≠ initState.ticket_sequence :=
  ⟨"Please select a valid date and time.", [(2026, 1)], by decide, by decide⟩

/-- Witness for the amended C7 at the concrete missing-timestamp request. -/
theorem C7_custom_timestamp_error_after_allocation_witness :
    ∃ msg, new_ticket wNow c7Form wRender true initState
        = .txValidationError msg
            (next_ticket_number initState.ticket_sequence wNow.date.year).seqTable ∧
      (seqRow (next_ticket_number initState.ticket_sequence wNow.date.year).seqTable
          wNow.date.year = some (counterVal initState wNow.date.year + 1)) ∧
      durableState initState (new_ticket wNow c7Form wRender true initState) = initState :=
  C7_custom_timestamp_error_after_allocation wNow c7Form wRender true initState
    (resolvedOf c7Form initState ⟨125, 10⟩) rfl rfl (Or.inl rfl)

/-! ## Group-sum algebra for the totals queries -/

theorem sum_filter_split {α M : Type} [AddCommMonoid M] (p : α → Bool) (q : α → M)
    (l : List α) :
    ((l.filter p).map q).sum + ((l.filter (fun x => !(p x))).map q).sum = (l.map q).sum := by
  induction l with
  | nil => simp
  | cons a l ih =>
    rw [List.filter_cons, List.filter_cons]
    by_cases h : p a
    · rw [if_pos h, if_neg (by simp [h])]
      simp only [List.map_cons, List.sum_cons]
      rw [add_assoc, ih]
    · rw [if_neg h, if_pos (by simp [h]), List.map_cons, List.sum_cons, add_left_comm, ih]
      rw [List.map_cons, List.sum_cons]

theorem sum_over_groups {α κ M : Type} [BEq κ] [LawfulBEq κ] [AddCommMonoid M]
    (key : α → κ) (q : α → M) :
    ∀ (keys : List κ) (ts : List α), keys.Nodup → (∀ t ∈ ts, key t ∈ keys) →
      (keys.map (fun k => ((ts.filter (fun t => key t == k)).map q).sum)).sum
        = (ts.map q).sum := by
  intro keys
  induction keys with
  | nil =>
    intro ts _ hcov
    have hts : ts = [] :=
      List.eq_nil_iff_forall_not_mem.mpr (fun a ha => by simpa using hcov a ha)
    rw [hts]
    rfl
  | cons k ks ih =>
    intro ts hnd hcov
    have hkks : k ∉ ks := (List.nodup_cons.mp hnd).1
    have hnd2 : ks.Nodup := (List.nodup_cons.mp hnd).2
    have hrest : ∀ k2 ∈ ks,
        ts.filter (fun t => key t == k2)
          = (ts.filter (fun t => !(key t == k))).filter (fun t => key t == k2) := by
      intro k2 hk2
      rw [List.filter_filter]
      apply List.filter_congr
      intro t _
      cases hk : (key t == k2) with
      | false => simp [hk]
      | true =>
        have : key t = k2 := eq_of_beq hk
        have hne : (key t == k) = false := by
          rw [this]
          exact beq_false_of_ne (fun he => hkks (he ▸ hk2))
        simp [hk, hne]
    have hcov2 : ∀ t2 ∈ ts.filter (fun t => !(key t == k)), key t2 ∈ ks := by
      intro t2 ht2
      obtain ⟨htm, hpt⟩ := List.mem_filter.mp ht2
      rcases List.mem_cons.mp (hcov t2 htm) with h | h
      · rw [h] at hpt
        simp at hpt
      · exact h
    have hmapeq : ks.map (fun k2 => ((ts.filter (fun t => key t == k2)).map q).sum)
        = ks.map (fun k2 => (((ts.filter (fun t => !(key t == k))).filter
            (fun t => key t == k2)).map q).sum) := by
      apply List.map_congr_left
      intro k2 hk2
      rw [hrest k2 hk2]
    rw [List.map_cons, List.sum_cons, hmapeq,
      ih (ts.filter (fun t => !(key t == k))) hnd2 hcov2]
    exact sum_filter_split (fun t => key t == k) q ts

/-- C4: for every filter combination and pagination offset, the report totals
are computed over the full filtered ticket set: the totals-by-unit table sums
to the total quantity of all filtered tickets, each totals-by-(material,
unit) entry equals the quantity sum of the filtered tickets with that
material and unit, and both tables are independent of the offset. -/
theorem C4_totals_cover_full_filtered_population (today : Date) (args : ReportArgs)
    (offset : Nat) (st : DBState) :
    (((reports today args offset st).totals_by_unit).map (fun p => p.2)).sum
        = ((reportsFiltered today args st).map (fun t => t.quantity)).sum ∧
    (∀ p ∈ (reports today args offset st).totals_by_material,
      p.2 = (((reportsFiltered today args st).filter
          (fun t => t.material_name_snapshot == p.1.1 && t.unit == p.1.2)).map
            (fun t => t.quantity)).sum) ∧
    (reports today args offset st).totals_by_unit
        = (reports today args 0 st).totals_by_unit ∧
    (reports today args offset st).totals_by_material
        = (reports today args 0 st).totals_by_material := by
  refine ⟨?_, ?_, rfl, rfl⟩
  · show ((totalsByUnit (reportsFiltered today args st)).map (fun p => p.2)).sum = _
    unfold totalsByUnit
    rw [List.map_map]
    show ((((reportsFiltered today args st).map (fun t => t.unit)).dedup.insertionSort
        unitRel).map (fun u => (((reportsFiltered today args st).filter
          (fun t => t.unit == u)).map (fun t => t.quantity)).sum)).sum = _
    apply sum_over_groups (fun t : Ticket => t.unit) (fun t : Ticket => t.quantity)
    · exact (List.perm_insertionSort unitRel _).symm.nodup (List.nodup_dedup _)
    · intro t ht
      exact (List.perm_insertionSort unitRel _).mem_iff.mpr
        (List.mem_dedup.mpr (List.mem_map_of_mem _ ht))
  · intro p hp
    show p.2 = _
    obtain ⟨k, hk, hpe⟩ := List.mem_map.mp hp
    cases hpe
    obtain ⟨k1, k2⟩ := k
    show (((reportsFiltered today args st).filter
        (fun t => materialKey t == (k1, k2))).map (fun t => t.quantity)).sum = _
    congr 1

/-- The claim's report page order, stated strictly: customer (BINARY
collation) ascending; within equal customer, rank IN before OUT before
anything else; within equal customer and rank, strictly higher id first. -/
def reportOrder (a b : Ticket) : Prop :=
  sqlKey a.customer_snapshot < sqlKey b.customer_snapshot ∨
    (sqlKey a.customer_snapshot = sqlKey b.customer_snapshot ∧
      (dirRank a.direction < dirRank b.direction ∨
        (dirRank a.direction = dirRank b.direction ∧ b.id < a.id)))

theorem reportRel_and_ne_id (a b : Ticket) (h : reportRel a b) (hne : a.id ≠ b.id) :
    reportOrder a b := by
  rcases h with h | ⟨e1, h⟩
  · exact Or.inl h
  · rcases h with h | ⟨e2, h⟩
    · exact Or.inr ⟨e1, Or.inl h⟩
    · exact Or.inr ⟨e1, Or.inr ⟨e2, lt_of_le_of_ne h (Ne.symm hne)⟩⟩

/-- C8: for every filter combination and offset, the interactive report page
is strictly ordered by customer ascending, then direction rank (IN, OUT,
other last), then id descending; it has at most 20 rows; and every row is a
stored ticket matching the effective filter. Distinct internal ids (SQLite
rowids are unique) make the order strict. -/
theorem C8_report_page_ordering (today : Date) (args : ReportArgs) (offset : Nat)
    (st : DBState) (hids : (st.tickets.map (fun t => t.id)).Nodup) :
    ((reports today args offset st).tickets).Pairwise reportOrder ∧
    (reports today args offset st).tickets.length ≤ 20 ∧
    (∀ t ∈ (reports today args offset st).tickets,
      t ∈ st.tickets ∧ ticketMatches (reportsWhere today args) t = true) := by
  have hpage : (reports today args offset st).tickets
      = (((reportsFiltered today args st).insertionSort reportRel).drop offset).take 20 := rfl
  have hsub : (reports today args offset st).tickets.Sublist
      ((reportsFiltered today args st).insertionSort reportRel) := by
    rw [hpage]
    exact (List.take_sublist _ _).trans (List.drop_sublist _ _)
  have hsorted : ((reportsFiltered today args st).insertionSort reportRel).Pairwise reportRel :=
    List.sorted_insertionSort reportRel _
  have hfsub : (reportsFiltered today args st).Sublist st.tickets := List.filter_sublist _
  have hnd1 : ((reportsFiltered today args st).map (fun t => t.id)).Nodup :=
    hids.sublist (hfsub.map _)
  have hnd2 : (((reportsFiltered today args st).insertionSort reportRel).map
      (fun t => t.id)).Nodup :=
    ((List.perm_insertionSort reportRel _).map _).symm.nodup hnd1
  have hnd3 : ((reports today args offset st).tickets.map (fun t => t.id)).Nodup :=
    hnd2.sublist (hsub.map _)
  refine ⟨?_, ?_, ?_⟩
  · have hprel : (reports today args offset st).tickets.Pairwise reportRel :=
      hsorted.sublist hsub
    have hpne : (reports today args offset st).tickets.Pairwise
        (fun a b => (fun t : Ticket => t.id) a ≠ (fun t : Ticket => t.id) b) :=
      List.pairwise_map.mp hnd3
    exact (hprel.and hpne).imp (fun hab => reportRel_and_ne_id _ _ hab.1 hab.2)
  · rw [hpage]
    rw [List.length_take]
    exact min_le_left _ _
  · intro t ht
    have hmem : t ∈ reportsFiltered today args st :=
      (List.perm_insertionSort reportRel _).subset (hsub.subset ht)
    exact List.mem_filter.mp hmem

/-- A ticket stored with customer "Beta", direction IN, id 1. -/
def c8t1 : Ticket :=
  ⟨1, "DT-2026-000001", 2026, 1, "IN", "2026-10-01T08:00:00", none, "J1", "J1", "Beta",
   none, "T1", none, "Gravel", ⟨2, 1⟩, "Ton", "", "", []⟩

/-- A ticket stored with customer "Alpha", direction OUT, id 2. -/
def c8t2 : Ticket :=
  ⟨2, "DT-2026-000002", 2026, 2, "OUT", "2026-10-02T08:00:00", none, "J2", "J2", "Alpha",
   none, "T2", none, "Sand", ⟨3, 1⟩, "Ton", "", "", []⟩

/-- A two-ticket database for the report-claims witnesses. -/
def c8State : DBState := ⟨[(2026, 2)], [c8t1, c8t2], [], [], [], 3⟩

/-- Explicit-date report filters covering both stored tickets. -/
def c8Args : ReportArgs := ⟨"2026-01-01", "2026-12-31", "", "", ""⟩

/-- Witness for C8 on the concrete two-ticket database. -/
theorem C8_report_page_ordering_witness :
    ((reports wNow.date c8Args 0 c8State).tickets).Pairwise reportOrder ∧
    (reports wNow.date c8Args 0 c8State).tickets.length ≤ 20 ∧
    (∀ t ∈ (reports wNow.date c8Args 0 c8State).tickets,
      t ∈ c8State.tickets ∧ ticketMatches (reportsWhere wNow.date c8Args) t = true) :=
  C8_report_page_ordering wNow.date c8Args 0 c8State (by decide)

/-- A ticket created long before any 14-day window containing 2026-10-12. -/
def c3t : Ticket :=
  ⟨1, "DT-2020-000001", 2020, 1, "IN", "2020-01-01T10:00:00", none, "J1", "J1", "Beta",
   none, "T1", none, "Gravel", ⟨2, 1⟩, "Ton", "", "", []⟩

/-- A database holding only the old ticket. -/
def c3State : DBState := ⟨[(2020, 1)], [c3t], [], [], [], 2⟩

/-- The implicit query: no filter parameter supplied. -/
def c3Args : ReportArgs := ⟨"", "", "", "", ""⟩

/-- Counterexample to C3 as stated: with no dates supplied, the interactive
report applies the last-14-days default but the CSV export and the print
variant apply no date filter at all, so on a database holding one old ticket
the three consumers disagree — different totals-by-unit rows and different
ticket sets for the same implicit query. -/
theorem C3_counterexample_default_window_not_shared :
    (reports wNow.date c3Args 0 c3State).totals_by_unit.map Prod.fst
        ≠ (export_reports_csv c3Args c3State).totals_by_unit.map Prod.fst ∧
    (reports wNow.date c3Args 0 c3State).tickets.map (fun t => t.ticket_number)
        ≠ (export_reports_csv c3Args c3State).tickets.map (fun t => t.ticket_number) ∧
    (reports wNow.date c3Args 0 c3State).totals_by_unit.map Prod.fst
        ≠ (print_reports c3Args c3State).totals_by_unit.map Prod.fst :=
  ⟨by decide, by decide, by decide⟩

/-- C3 (amended): only the interactive report applies the last-14-days
default; the CSV export and the print variant apply no date filter when no
dates are supplied, so the three views can disagree on the implicit query.
When an explicit date filter is supplied (so the default never fires), the
CSV export and the interactive report evaluate the same WHERE clause: their
totals-by-unit and totals-by-material tables are identical, and whenever the
filtered population fits in the report page (at most 20 tickets, offset 0)
the two ticket lists hold exactly the same tickets, up to order. -/
theorem C3_explicit_filters_agree (today : Date) (args : ReportArgs) (st : DBState)
    (hdate : ¬(pyStrip args.date_from = "" ∧ pyStrip args.date_to = "")) :
    (reports today args 0 st).totals_by_unit = (export_reports_csv args st).totals_by_unit ∧
    (reports today args 0 st).totals_by_material
      = (export_reports_csv args st).totals_by_material ∧
    ((exportFiltered args st).length ≤ 20 →
      ((reports today args 0 st).tickets).Perm (export_reports_csv args st).tickets) := by
  have hw : reportsWhere today args = parseWhereArgs args := by
    unfold reportsWhere
    exact if_neg hdate
  have hf : reportsFiltered today args st = exportFiltered args st := by
    unfold reportsFiltered exportFiltered
    rw [hw]
  refine ⟨?_, ?_, ?_⟩
  · show totalsByUnit (reportsFiltered today args st) = totalsByUnit (exportFiltered args st)
    rw [hf]
  · show totalsByMaterial (reportsFiltered today args st)
        = totalsByMaterial (exportFiltered args st)
    rw [hf]
  · intro hlen
    show ((((reportsFiltered today args st).insertionSort reportRel).drop 0).take 20).Perm
      (((exportFiltered args st).insertionSort idDescRel).take 1000)
    rw [hf, List.drop_zero]
    have h1 : ((exportFiltered args st).insertionSort reportRel).length ≤ 20 := by
      rw [(List.perm_insertionSort reportRel _).length_eq]
      exact hlen
    have h2 : ((exportFiltered args st).insertionSort idDescRel).length ≤ 1000 := by
      rw [(List.perm_insertionSort idDescRel _).length_eq]
      exact le_trans hlen (by norm_num)
    rw [List.take_of_length_le h1, List.take_of_length_le h2]
    exact (List.perm_insertionSort reportRel _).trans
      (List.perm_insertionSort idDescRel _).symm

/-- Witness for the amended C3 on the two-ticket database with explicit
dates. -/
theorem C3_explicit_filters_agree_witness :
    (reports wNow.date c8Args 0 c8State).totals_by_unit
        = (export_reports_csv c8Args c8State).totals_by_unit ∧
    (reports wNow.date c8Args 0 c8State).totals_by_material
        = (export_reports_csv c8Args c8State).totals_by_material ∧
    ((reports wNow.date c8Args 0 c8State).tickets).Perm
        (export_reports_csv c8Args c8State).tickets :=
  ⟨(C3_explicit_filters_agree wNow.date c8Args c8State (by decide)).1,
   (C3_explicit_filters_agree wNow.date c8Args c8State (by decide)).2.1,
   (C3_explicit_filters_agree wNow.date c8Args c8State (by decide)).2.2 (by decide)⟩

theorem refresh_jobs_of_error (now : String) (csv : CsvSource) (cache : List JobCacheRow)
    (nextId : Nat) (msg : String)
    (h : refresh_jobs_cache now csv cache nextId = .error msg) :
    refresh_jobs now csv cache nextId = (cache, nextId) := by
  unfold refresh_jobs
  rw [h]

/-- C9: a CSV jobs source whose header lacks a job-code column under every
accepted alias (job_code, Job #, Job#, Job Number) or lacks a job-name column
under every accepted alias (job_name, Job Name) makes `refresh_jobs_cache`
fail before writing any row — the refresh route rolls back, leaving the jobs
cache (and the rowid counter) unchanged. -/
theorem C9_jobs_sync_missing_columns_fails (now : String) (csv : CsvSource)
    (cache : List JobCacheRow) (nextId : Nat)
    (h : first_present csv.fieldnames ["job_code", "Job #", "Job#", "Job Number"] = none ∨
      first_present csv.fieldnames ["job_name", "Job Name"] = none) :
    (∃ msg, refresh_jobs_cache now csv cache nextId = .error msg) ∧
    refresh_jobs now csv cache nextId = (cache, nextId) := by
  have herr : ∃ msg, refresh_jobs_cache now csv cache nextId = .error msg := by
    unfold refresh_jobs_cache
    by_cases hf : csv.fieldnames = []
    · rw [if_pos hf]
      exact ⟨_, rfl⟩
    · rw [if_neg hf]
      have hmiss : requiredColsMissing csv.fieldnames ≠ [] := by
        unfold requiredColsMissing
        rcases h with h | h
        · rw [h]
          simp
        · rw [h]
          simp
      rw [if_pos hmiss]
      exact ⟨_, rfl⟩
  obtain ⟨msg, hmsg⟩ := herr
  exact ⟨⟨msg, hmsg⟩, refresh_jobs_of_error now csv cache nextId msg hmsg⟩

/-- A CSV source with a header that matches no job-code and no job-name
alias. -/
def c9Csv : CsvSource := ⟨["foo", "bar"], [["1", "2"], ["3", "4"]]⟩

/-- A one-row jobs cache. -/
def c9Cache : List JobCacheRow := [⟨1, "J1", "Job One", "Acme", 1, none, "2026-01-01T00:00:00"⟩]

/-- Witness for C9: the bad header fails the sync and leaves the cache rows
untouched. -/
theorem C9_jobs_sync_missing_columns_fails_witness :
    (∃ msg, refresh_jobs_cache "2026-10-12T00:00:00" c9Csv c9Cache 2 = .error msg) ∧
    refresh_jobs "2026-10-12T00:00:00" c9Csv c9Cache 2 = (c9Cache, 2) :=
  C9_jobs_sync_missing_columns_fails "2026-10-12T00:00:00" c9Csv c9Cache 2 (Or.inl (by decide))
